import Mathlib

/-!
Verification of the uxbench event-driven metrics aggregation engine and the
sidepanel report averager.

The engine definitions are a shallow embedding of the background worker of the
recorder extension.  The repository ships the worker in several historical
versions; the authoritative metric set (per the specification) is the later,
cursor-travel-based one, whose processors for clicks, scroll, keyboard and idle
gaps appear verbatim in src/unnamed/part_016 (functions detectIdleGap,
classifyAndCount, computeFittsAndScanning, appendActionLog, processClickEvent,
processScrollEvent, processKeyboardEvent, stopRecording, handleEventInternal).
Those are embedded from that source.  The pieces of the final worker that are
not under src (its test src/unnamed/part_015 and the sidepanel declaration
src/recorder/src/sidepanel/app.ts are) — the cursor-travel processor, the
three-term composite score, and the start()/cursor initialisation — are
modelled from the spec and carry a doc comment saying so.

Numeric conventions: JavaScript numbers holding pixel distances, Fitts indices,
ratios and timestamps are modelled as real numbers; event/click counters, which
only ever hold integers, as naturals.  JavaScript truthiness of optional
strings and numbers (`x || d`) is modelled explicitly: the empty string and 0
are falsy.

The averager (src/recorder/src/sidepanel/app.ts, buildAveragedReport and the
download handler) operates on finalized JSON reports; its arithmetic is exact
rational arithmetic plus JavaScript rounding, so it is embedded over ℚ, which
keeps every concrete instance decidable.
-/

namespace UXBench

/-! ## JS helpers -/

/-- JS `s || d` for an optional string: `undefined`/`null` and `""` are falsy. -/
def jsStrOr (s : Option String) (d : String) : String :=
  match s with
  | none => d
  | some "" => d
  | some t => t

/-- JS truthiness of an optional string (`""` is falsy). -/
def jsStrTruthy (s : Option String) : Bool :=
  match s with
  | none => false
  | some "" => false
  | some _ => true

/-- JS `Math.round` on a real: round half toward positive infinity. -/
noncomputable def jsRoundR (x : ℝ) : ℤ := ⌊x + 1 / 2⌋

/-! ## Report data model
From the final report schema declared in src/recorder/src/sidepanel/app.ts
(lines 8–59) and the matching structures of src/unnamed/part_016 (lines 7–75).
The `metadata` record of the worker report holds only contextual strings
(url, browser, operator, …) that no engine function reads back, so it is not
part of the engine model; the averager below has its own metadata model. -/

structure DetailEntry where
  element : String
  reason : String

structure IdleGap where
  gap_ms : ℝ
  after_action : String
  before_action : String

structure FittsEntry where
  element : String
  id : ℝ
  distance_px : ℝ
  target_size : String

structure ActionLogEntry where
  type : String
  timestamp : ℝ
  target : String
  text : String
  classification : String

structure ClickCount where
  total : ℕ
  productive : ℕ
  ceremonial : ℕ
  wasted : ℕ
  ceremonial_details : List DetailEntry
  wasted_details : List DetailEntry

structure TimeOnTask where
  total_ms : ℝ
  idle_gaps : List IdleGap
  idle_ms : Option ℝ
  active_ms : Option ℝ
  longest_idle_ms : Option ℝ
  longest_idle_after : Option String

structure FittsMetric where
  formula : String
  cumulative_id : ℝ
  average_id : ℝ
  max_id : ℝ
  max_id_element : String
  max_id_distance_px : ℝ
  max_id_target_size : String
  top_3_hardest : List FittsEntry

structure ContextSwitches where
  total : ℕ
  ratio_ : ℝ
  longest_keyboard_streak : Option ℕ
  longest_mouse_streak : Option ℕ

structure ShortcutCoverage where
  shortcuts_used : ℕ

structure TypingRatioMetric where
  free_text_inputs : ℕ
  constrained_inputs : ℕ
  ratio_ : ℝ
  free_text_fields : List String

structure ScanningDistance where
  method : String
  cumulative_px : ℝ
  average_px : ℝ
  max_single_px : ℝ
  max_single_from : Option String
  max_single_to : Option String

structure ScrollDistance where
  total_px : ℝ
  page_scroll_px : Option ℝ
  container_scroll_px : Option ℝ
  total_horizontal_px : Option ℝ
  scroll_events : Option ℕ
  heaviest_container : Option String

structure MouseTravel where
  total_px : ℝ
  idle_travel_px : ℝ
  move_events : ℕ
  path_efficiency : Option ℝ

structure Metrics where
  click_count : ClickCount
  time_on_task : TimeOnTask
  fitts : FittsMetric
  context_switches : ContextSwitches
  shortcut_coverage : ShortcutCoverage
  typing_ratio_ : TypingRatioMetric
  scanning_distance : ScanningDistance
  scroll_distance : ScrollDistance
  mouse_travel : MouseTravel
  composite_score : ℝ

structure BenchmarkReport where
  schema_version : String
  source : String
  metrics : Metrics
  action_log : List ActionLogEntry

/-! ## Event payloads
From src/unnamed/part_016 (lines 77–106) restricted to the final event set:
click, scroll_update, keyboard_update plus mouse_travel_update, whose payload
shape is produced by src/recorder/src/content/mouse-travel.ts (sendUpdate,
lines 87–101). -/

structure Rect where
  width : ℝ
  height : ℝ

structure ClickTarget where
  tagName : String
  id : Option String
  innerText : Option String
  rect : Rect

structure ClickPayload where
  timestamp : ℝ
  x : ℝ
  y : ℝ
  classification : Option String
  classificationReason : Option String
  target : ClickTarget

structure ScrollPayload where
  total_px : ℝ
  page_scroll_px : ℝ
  container_scroll_px : ℝ
  total_horizontal_px : Option ℝ
  scroll_events : ℕ
  heaviest_container : Option String

structure CSwitchesPayload where
  total : ℕ
  ratio_ : ℝ
  longest_keyboard_streak : ℕ
  longest_mouse_streak : ℕ

structure TypingPayload where
  free_text_inputs : ℕ
  constrained_inputs : ℕ
  ratio_ : ℝ
  free_text_fields : List String

structure KeyboardPayload where
  context_switches : CSwitchesPayload
  shortcuts_used : ℕ
  typing_ratio_ : TypingPayload

structure MouseTravelPayload where
  total_px : ℝ
  idle_travel_px : ℝ
  move_events : ℕ

inductive EventPayload where
  | click (p : ClickPayload)
  | scroll_update (p : ScrollPayload)
  | keyboard_update (p : KeyboardPayload)
  | mouse_travel_update (p : MouseTravelPayload)

/-- The `type` discriminator string of a payload. -/
def payloadTypeName : EventPayload → String
  | .click _ => "click"
  | .scroll_update _ => "scroll_update"
  | .keyboard_update _ => "keyboard_update"
  | .mouse_travel_update _ => "mouse_travel_update"

/-! ## Session state
From the RecordingState interface of src/unnamed/part_016 (lines 7–15). -/

structure SessionState where
  isRecording : Bool
  startTime : Option ℝ
  lastClickPosition : Option (ℝ × ℝ)
  lastClickTarget : Option String
  lastActionTime : Option ℝ
  lastActionLabel : Option String
  currentRecording : Option BenchmarkReport

/-! ## Constants (src/unnamed/part_016 lines 127–128) -/

def IDLE_GAP_MS : ℝ := 3000

def ACTION_LOG_MAX : ℕ := 500

/-! ## Idle gap detection (src/unnamed/part_016 lines 430–445) -/

/-- Click label `innerText.substring(0, 40) || tagName || 'click'`
(src/unnamed/part_016 lines 434–435 and 533). -/
def clickTargetOf (c : ClickPayload) : String :=
  jsStrOr (c.target.innerText.map (fun t => t.take 40))
    (jsStrOr (some c.target.tagName) "click")

/-- Label used for an event in an idle gap entry: truncated target text, tag
name or `"click"` for a click, the payload type string otherwise
(src/unnamed/part_016 lines 434–436). -/
def deriveActionLabel : EventPayload → String
  | .click c => clickTargetOf c
  | p => payloadTypeName p

/-- detectIdleGap: when the last-action time is set (JS truthiness: a 0
timestamp is falsy), compare the gap against `IDLE_GAP_MS` and append an idle
gap entry on overshoot; the last-action time is then updated unconditionally. -/
noncomputable def detectIdleGap (recording : BenchmarkReport) (p : EventPayload)
    (s : SessionState) (now : ℝ) : BenchmarkReport × SessionState :=
  let recordingOut :=
    match s.lastActionTime with
    | none => recording
    | some la =>
      if la = 0 then recording
      else
        let gap := now - la
        if gap > IDLE_GAP_MS then
          { recording with metrics.time_on_task.idle_gaps :=
              recording.metrics.time_on_task.idle_gaps ++
                [{ gap_ms := gap
                   after_action := jsStrOr s.lastActionLabel "start"
                   before_action := deriveActionLabel p }] }
        else recording
  (recordingOut, { s with lastActionTime := some now })

/-! ## Click processor (src/unnamed/part_016 lines 447–541) -/

/-- Element label `tag + "#" + id` used in detail entries and the action log
(src/unnamed/part_016 lines 450 and 523; an empty id string is falsy). -/
def elementLabel (t : ClickTarget) : String :=
  t.tagName ++ (if jsStrTruthy t.id then "#" ++ t.id.getD "" else "")

/-- classifyAndCount: bump the total and exactly one classification bucket;
record a detail entry for ceremonial/wasted clicks that carry a reason. -/
def classifyAndCount (m : Metrics) (p : ClickPayload) : Metrics :=
  let m1 := { m with click_count.total := m.click_count.total + 1 }
  let elLabel := elementLabel p.target
  if p.classification = some "wasted" then
    let m2 := { m1 with click_count.wasted := m1.click_count.wasted + 1 }
    if jsStrTruthy p.classificationReason then
      { m2 with click_count.wasted_details :=
          m2.click_count.wasted_details ++
            [{ element := elLabel, reason := p.classificationReason.getD "" }] }
    else m2
  else if p.classification = some "ceremonial" then
    let m2 := { m1 with click_count.ceremonial := m1.click_count.ceremonial + 1 }
    if jsStrTruthy p.classificationReason then
      { m2 with click_count.ceremonial_details :=
          m2.click_count.ceremonial_details ++
            [{ element := elLabel, reason := p.classificationReason.getD "" }] }
    else m2
  else
    { m1 with click_count.productive := m1.click_count.productive + 1 }

/-- JS `Math.atan2`, on the usual branch split (no signed zero). The engine only
evaluates it on non-negative arguments `(|dy|, |dx|)`. -/
noncomputable def jsAtan2 (y x : ℝ) : ℝ :=
  if 0 < x then Real.arctan (y / x)
  else if x < 0 then
    (if 0 ≤ y then Real.arctan (y / x) + Real.pi else Real.arctan (y / x) - Real.pi)
  else
    (if 0 < y then Real.pi / 2 else if y < 0 then -(Real.pi / 2) else 0)

/-- Target size display string, `"{round(w)}x{round(h)}px"`. -/
noncomputable def formatTargetSize (r : Rect) : String :=
  toString (jsRoundR r.width) ++ "x" ++ toString (jsRoundR r.height) ++ "px"

/-- computeFittsAndScanning: between consecutive clicks accumulate euclidean
scanning distance, track the single largest movement, accumulate the Shannon
Fitts index with the directional effective width (guarded against degenerate
geometry), maintain the top-3 hardest targets, then update both averages when
at least one movement exists. -/
noncomputable def computeFittsAndScanning (m : Metrics) (p : ClickPayload)
    (clickTarget : String) (s : SessionState) : Metrics × SessionState :=
  let m1 :=
    match s.lastClickPosition with
    | none => m
    | some pos =>
      let dx := p.x - pos.1
      let dy := p.y - pos.2
      let distance := Real.sqrt (dx * dx + dy * dy)
      let sd := m.scanning_distance
      let sd1 := { sd with cumulative_px := sd.cumulative_px + distance }
      let sd2 :=
        if distance > sd.max_single_px then
          { sd1 with max_single_px := distance
                     max_single_from := some (jsStrOr s.lastClickTarget "unknown")
                     max_single_to := some clickTarget }
        else sd1
      let mA := { m with scanning_distance := sd2 }
      let rect := p.target.rect
      let angle := jsAtan2 |dy| |dx|
      let targetWidth := rect.width * |Real.cos angle| + rect.height * |Real.sin angle|
      if targetWidth > 0 ∧ distance > 0 then
        let idVal := Real.logb 2 (distance / targetWidth + 1)
        let f := mA.fitts
        let f1 := { f with cumulative_id := f.cumulative_id + idVal }
        let f2 :=
          if idVal > f.max_id then
            { f1 with max_id := idVal
                      max_id_element := clickTarget
                      max_id_distance_px := distance
                      max_id_target_size := formatTargetSize rect }
          else f1
        let entry : FittsEntry :=
          { element := clickTarget, id := idVal, distance_px := distance
            target_size := formatTargetSize rect }
        let top := ((f2.top_3_hardest ++ [entry]).mergeSort
          (fun a b => decide (b.id ≤ a.id))).take 3
        { mA with fitts := { f2 with top_3_hardest := top } }
      else mA
  let s1 := { s with lastClickPosition := some (p.x, p.y)
                     lastClickTarget := some clickTarget }
  let movements : ℕ := m1.click_count.total - 1
  let m2 :=
    if movements > 0 then
      { m1 with
          fitts.average_id := m1.fitts.cumulative_id / (movements : ℝ)
          scanning_distance.average_px := m1.scanning_distance.cumulative_px / (movements : ℝ) }
    else m1
  (m2, s1)

/-- appendActionLog: push the click entry and keep only the newest
`ACTION_LOG_MAX` entries (JS `slice(-ACTION_LOG_MAX)`). The log classification
falls back to `"productive"` only for a missing or empty classification string
(JS `payload.classification || 'productive'`). -/
def appendActionLog (recording : BenchmarkReport) (p : ClickPayload) : BenchmarkReport :=
  let entry : ActionLogEntry :=
    { type := "click"
      timestamp := p.timestamp
      target := elementLabel p.target
      text := p.target.innerText.getD ""
      classification := jsStrOr p.classification "productive" }
  let log := recording.action_log ++ [entry]
  { recording with action_log :=
      if log.length > ACTION_LOG_MAX then log.drop (log.length - ACTION_LOG_MAX) else log }

/-- processClickEvent (src/unnamed/part_016 lines 532–541). -/
noncomputable def processClickEvent (recording : BenchmarkReport) (p : ClickPayload)
    (s : SessionState) : BenchmarkReport × SessionState × Bool :=
  let clickTarget := clickTargetOf p
  let s1 := { s with lastActionLabel := some clickTarget }
  let m1 := classifyAndCount recording.metrics p
  let ms := computeFittsAndScanning m1 p clickTarget s1
  let r2 := appendActionLog { recording with metrics := ms.1 } p
  (r2, ms.2, true)

/-- processScrollEvent (src/unnamed/part_016 lines 543–551): latest-value-wins
overwrite of the scroll aggregate (`total_horizontal_px || 0`). -/
def processScrollEvent (recording : BenchmarkReport) (p : ScrollPayload) :
    BenchmarkReport × Bool :=
  ({ recording with metrics.scroll_distance :=
      { total_px := p.total_px
        page_scroll_px := some p.page_scroll_px
        container_scroll_px := some p.container_scroll_px
        total_horizontal_px := some (p.total_horizontal_px.getD 0)
        scroll_events := some p.scroll_events
        heaviest_container := p.heaviest_container } }, true)

/-- processKeyboardEvent (src/unnamed/part_016 lines 553–571): latest-value-wins
overwrite of context switches, shortcut coverage and typing summary. -/
def processKeyboardEvent (recording : BenchmarkReport) (p : KeyboardPayload)
    (s : SessionState) : BenchmarkReport × SessionState × Bool :=
  let s1 := { s with lastActionLabel := some "keyboard" }
  let cs := p.context_switches
  let tr := p.typing_ratio_
  let r1 :=
    { recording with metrics :=
        { recording.metrics with
            context_switches :=
              { total := cs.total, ratio_ := cs.ratio_
                longest_keyboard_streak := some cs.longest_keyboard_streak
                longest_mouse_streak := some cs.longest_mouse_streak }
            shortcut_coverage := { shortcuts_used := p.shortcuts_used }
            typing_ratio_ :=
              { free_text_inputs := tr.free_text_inputs
                constrained_inputs := tr.constrained_inputs
                ratio_ := tr.ratio_
                free_text_fields := tr.free_text_fields } } }
  (r1, s1, true)

/-- Modelled from the spec: the cursor-travel processor of the final worker,
which is not under src (only its test, src/unnamed/part_015 lines 599–670, and
the producer comment in src/recorder/src/content/mouse-travel.ts line 98 are).
Per §4.7 it overwrites `mouse_travel.{total_px, idle_travel_px, move_events}`
from the event and computes `path_efficiency = scanning cumulative / total_px`
when `total_px > 0`, else null. -/
noncomputable def processMouseTravelEvent (recording : BenchmarkReport)
    (p : MouseTravelPayload) : BenchmarkReport × Bool :=
  ({ recording with metrics.mouse_travel :=
      { total_px := p.total_px
        idle_travel_px := p.idle_travel_px
        move_events := p.move_events
        path_efficiency :=
          if p.total_px > 0 then
            some (recording.metrics.scanning_distance.cumulative_px / p.total_px)
          else none } }, true)

/-! ## Composite score -/

/-- Modelled from the spec: the final worker's composite score, §4.8:
`composite = contextSwitches.total × 1.5 + fitts.cumulativeId × 1.0 +
scrollDistance.totalPx × 0.005`. (The earlier engine under
src/unnamed/part_016 lines 163–177 still includes wait-time and
navigation-depth terms of the superseded metric set; the worker test
src/unnamed/part_015 lines 672–718 pins the final composite to switches, Fitts
and scroll only.) -/
noncomputable def computeComposite (m : Metrics) : ℝ :=
  (m.context_switches.total : ℝ) * 1.5 + m.fitts.cumulative_id * 1.0 +
    m.scroll_distance.total_px * 0.005

/-- Modelled from the spec (§4.8): after every state-changing event the
composite score is recomputed fresh from the current cumulative fields. -/
noncomputable def writeComposite (m : Metrics) : Metrics :=
  { m with composite_score := computeComposite m }

/-! ## Dispatcher (src/unnamed/part_016 lines 607–660, final event set) -/

/-- Active user-action categories for idle gap detection: click, keyboard and
scroll; never cursor travel (src/unnamed/part_016 line 615; the cursor-travel
exclusion is pinned by src/unnamed/part_015 lines 538–559). -/
def isUserAction : EventPayload → Bool
  | .click _ => true
  | .scroll_update _ => true
  | .keyboard_update _ => true
  | .mouse_travel_update _ => false

/-- Event time, JS `(payload as ClickPayload).timestamp || Date.now()`:
the click timestamp when present and non-zero, the wall clock otherwise. -/
noncomputable def eventNow (p : EventPayload) (wallNow : ℝ) : ℝ :=
  match p with
  | .click c => if c.timestamp = 0 then wallNow else c.timestamp
  | _ => wallNow

/-- Per-type dispatch (the switch of src/unnamed/part_016 lines 621–629,
with the final event set). -/
noncomputable def dispatchEvent (recording : BenchmarkReport) (p : EventPayload)
    (s : SessionState) : BenchmarkReport × SessionState × Bool :=
  match p with
  | .click c => processClickEvent recording c s
  | .scroll_update sc =>
    let r := processScrollEvent recording sc
    (r.1, s, r.2)
  | .keyboard_update k => processKeyboardEvent recording k s
  | .mouse_travel_update mt =>
    let r := processMouseTravelEvent recording mt
    (r.1, s, r.2)

/-- The recording-mode body of handleEventInternal: run idle gap detection for
active categories only, dispatch to the per-type processor, and persist the
mutated state (with the composite recomputed, see writeComposite) only when
the processor reports a state change; an unpersisted mutation is dropped. -/
noncomputable def handleStep (recording : BenchmarkReport) (p : EventPayload)
    (s : SessionState) (now : ℝ) : SessionState :=
  let rs1 := if isUserAction p then detectIdleGap recording p s now else (recording, s)
  let rsb := dispatchEvent rs1.1 p rs1.2
  if rsb.2.2 = false then s
  else
    let recOut := { rsb.1 with metrics := writeComposite rsb.1.metrics }
    { rsb.2.1 with currentRecording := some recOut }

/-- handleEventInternal: drop the event unless recording, then run handleStep
on the in-progress report. -/
noncomputable def handleEventInternal (s : SessionState) (p : EventPayload)
    (wallNow : ℝ) : SessionState :=
  if s.isRecording = false then s
  else
    match s.currentRecording with
    | none => s
    | some recording => handleStep recording p s (eventNow p wallNow)

/-! ## Session lifecycle -/

/-- The schema-complete empty metrics a session starts from: all counters and
accumulators zero, `fitts.formula` and `scanning_distance.method` fixed
(src/unnamed/part_016 lines 297–329, final metric set per the app.ts schema). -/
def emptyMetrics : Metrics :=
  { click_count :=
      { total := 0, productive := 0, ceremonial := 0, wasted := 0
        ceremonial_details := [], wasted_details := [] }
    time_on_task :=
      { total_ms := 0, idle_gaps := [], idle_ms := none, active_ms := none
        longest_idle_ms := none, longest_idle_after := none }
    fitts :=
      { formula := "shannon", cumulative_id := 0, average_id := 0, max_id := 0
        max_id_element := "", max_id_distance_px := 0, max_id_target_size := ""
        top_3_hardest := [] }
    context_switches :=
      { total := 0, ratio_ := 0
        longest_keyboard_streak := none, longest_mouse_streak := none }
    shortcut_coverage := { shortcuts_used := 0 }
    typing_ratio_ :=
      { free_text_inputs := 0, constrained_inputs := 0, ratio_ := 0
        free_text_fields := [] }
    scanning_distance :=
      { method := "euclidean", cumulative_px := 0, average_px := 0
        max_single_px := 0, max_single_from := none, max_single_to := none }
    scroll_distance :=
      { total_px := 0, page_scroll_px := none, container_scroll_px := none
        total_horizontal_px := none, scroll_events := none
        heaviest_container := none }
    mouse_travel :=
      { total_px := 0, idle_travel_px := 0, move_events := 0
        path_efficiency := none }
    composite_score := 0 }

/-- The empty report created at session start. -/
def emptyReport : BenchmarkReport :=
  { schema_version := "1.0", source := "chrome-extension"
    metrics := emptyMetrics, action_log := [] }

/-- The not-recording state (src/unnamed/part_016 line 215 and the reset state
written by stopRecording at line 391). -/
def initialState : SessionState :=
  { isRecording := false, startTime := none, lastClickPosition := none
    lastClickTarget := none, lastActionTime := none, lastActionLabel := none
    currentRecording := none }

/-- Modelled from the spec: start() of the final worker (not under src; the
startRecording in src/unnamed/part_016 lines 267–359 is the superseded engine).
Per §4.2 it builds the schema-complete empty report, resets all cursors and
sets the recording flag, and is a no-op if already recording; per §4.3 the
last-action time is unset until the first processed event. -/
def startRecording (s : SessionState) (now : ℝ) : SessionState :=
  if s.isRecording then s
  else
    { isRecording := true, startTime := some now, lastClickPosition := none
      lastClickTarget := none, lastActionTime := none, lastActionLabel := none
      currentRecording := some emptyReport }

/-- The longest gap, JS `gaps.reduce((max, g) => g.gap_ms > max.gap_ms ? g : max,
gaps[0])` (src/unnamed/part_016 line 381). -/
noncomputable def longestGap : List IdleGap → Option IdleGap
  | [] => none
  | g :: gs => some (gs.foldl (fun mx g2 => if g2.gap_ms > mx.gap_ms then g2 else mx) g)

/-- stopRecording (src/unnamed/part_016 lines 361–399): a no-op returning
nothing when not recording; otherwise derives total/idle/active time and the
longest idle gap, recomputes the composite score, and returns the frozen
report while resetting the session state. -/
noncomputable def stopRecording (s : SessionState) (now : ℝ) :
    Option BenchmarkReport × SessionState :=
  if s.isRecording = false then (none, s)
  else
    let duration := now - ((s.startTime.filter (fun t => t ≠ 0)).getD now)
    match s.currentRecording with
    | none => (none, initialState)
    | some r =>
      let gaps := r.metrics.time_on_task.idle_gaps
      let totalGapMs := (gaps.map IdleGap.gap_ms).sum
      let tot1 :=
        { r.metrics.time_on_task with
            total_ms := duration
            idle_ms := some totalGapMs
            active_ms := some (duration - totalGapMs) }
      let tot2 :=
        match longestGap gaps with
        | none => tot1
        | some g =>
          { tot1 with longest_idle_ms := some g.gap_ms
                      longest_idle_after := some g.after_action }
      let m1 := { r.metrics with time_on_task := tot2 }
      (some { r with metrics := writeComposite m1 }, initialState)

/-- Process a serialized sequence of events, each paired with the wall-clock
time of its processing (the queue of src/unnamed/part_016 lines 420–424
processes one event at a time, in order). -/
noncomputable def processEvents (s : SessionState) (es : List (EventPayload × ℝ)) :
    SessionState :=
  es.foldl (fun st e => handleEventInternal st e.1 e.2) s

/-- The session state after starting fresh at time `t` and processing `es`. -/
noncomputable def runSession (t : ℝ) (es : List (EventPayload × ℝ)) : SessionState :=
  processEvents (startRecording initialState t) es

/-- The in-progress report of a session state (the empty report if none). -/
def reportOf (s : SessionState) : BenchmarkReport :=
  s.currentRecording.getD emptyReport

/-- The report after starting fresh and processing a sequence of events. -/
noncomputable def reportAfter (t : ℝ) (es : List (EventPayload × ℝ)) : BenchmarkReport :=
  reportOf (runSession t es)

/-! ## Report averager
From src/recorder/src/sidepanel/app.ts: the report shape (lines 14–59), the
rounding helpers (lines 478–483), the declarative averaging field list
AVG_FIELDS with getPath/setPath (lines 488–541), buildAveragedReport
(lines 545–595) and the download handler (lines 711–732).

The averager consumes finalized JSON reports, so its numbers are modelled as
rationals and everything here is computable.  The `AVG_FIELDS` loop over
dot-notation paths is embedded as one explicit field-by-field update — the
same list of (path, rounding) pairs, statically typed.  Two JSON access
subtleties of the source are kept: (a) for the path `composite_score` the sum
reads `getPath(run, 'composite_score')` from the top level of the run — worker
reports keep the composite under `metrics`, so that top-level slot (modelled
as `composite_top`) is normally absent and reads as 0, and the averaged value
is likewise written to the top level, leaving `metrics.composite_score` at the
base run's value; (b) `getPath` yields 0 for an absent or non-numeric field
(e.g. a null `path_efficiency`), modelled by `Option ℚ` slots read with
`getD 0`. -/

/-- JS `Math.round` on a rational: round half toward positive infinity. -/
def jsRound (x : ℚ) : ℚ := (⌊x + 1 / 2⌋ : ℤ)

/-- `round2` of app.ts line 478: `Math.round(v * 100) / 100`. -/
def jsRound2 (x : ℚ) : ℚ := jsRound (x * 100) / 100

structure AvgFittsEntry where
  element : String
  id : ℚ
  distance_px : ℚ
  target_size : String
deriving DecidableEq

structure AvgClickCount where
  total : ℚ
  productive : ℚ
  ceremonial : ℚ
  wasted : ℚ
deriving DecidableEq

structure AvgTimeOnTask where
  total_ms : ℚ
deriving DecidableEq

structure AvgFitts where
  cumulative_id : ℚ
  average_id : ℚ
  max_id : ℚ
  max_id_element : String
  top_3_hardest : List AvgFittsEntry
deriving DecidableEq

structure AvgContextSwitches where
  total : ℚ
  ratio_ : ℚ
deriving DecidableEq

structure AvgShortcutCoverage where
  shortcuts_used : ℚ
deriving DecidableEq

structure AvgTypingRatioM where
  free_text_inputs : ℚ
  constrained_inputs : ℚ
  ratio_ : ℚ
  free_text_fields : List String
deriving DecidableEq

structure AvgScanningDistance where
  cumulative_px : ℚ
  average_px : ℚ
  max_single_px : ℚ
deriving DecidableEq

structure AvgScrollDistance where
  total_px : ℚ
  page_scroll_px : Option ℚ
  container_scroll_px : Option ℚ
  scroll_events : Option ℚ
deriving DecidableEq

structure AvgMouseTravel where
  total_px : ℚ
  idle_travel_px : ℚ
  move_events : ℚ
  path_efficiency : Option ℚ
deriving DecidableEq

structure AvgMetadata where
  run_count : Option ℚ
  averaged : Bool
deriving DecidableEq

structure AvgMetrics where
  click_count : AvgClickCount
  time_on_task : AvgTimeOnTask
  fitts : AvgFitts
  context_switches : AvgContextSwitches
  shortcut_coverage : AvgShortcutCoverage
  typing_ratio_ : AvgTypingRatioM
  scanning_distance : AvgScanningDistance
  scroll_distance : AvgScrollDistance
  mouse_travel : AvgMouseTravel
  composite_score : ℚ
deriving DecidableEq

structure AvgReport where
  metadata : AvgMetadata
  metrics : AvgMetrics
  composite_top : Option ℚ
deriving DecidableEq

/-- Averaging failure: `throw new Error('No valid runs')` of app.ts line 550. -/
inductive AvgError where
  | noValidReports
deriving DecidableEq

/-- Arithmetic mean of a numeric field over the valid runs, passed through the
field's rounding rule (the sum/average/round loop of app.ts lines 555–569). -/
def avgOf (validRuns : List AvgReport) (rnd : ℚ → ℚ) (f : AvgReport → ℚ) : ℚ :=
  rnd ((validRuns.map f).sum / (validRuns.length : ℚ))

/-- buildAveragedReport: filter to runs with a well-formed numeric
`clickCount.total` (a malformed run is modelled as `none`), fail when none
remain, otherwise average the `AVG_FIELDS` list field by field on top of a copy
of the last valid run, merge the non-numeric fields, and stamp the run count
and the averaged flag. -/
def buildAveragedReport (runs : List (Option AvgReport)) : Except AvgError AvgReport :=
  let validRuns := runs.filterMap id
  match validRuns.getLast? with
  | none => .error .noValidReports
  | some baseReport =>
    let avg := avgOf validRuns
    let m := baseReport.metrics
    let allHardest := validRuns.flatMap (fun run => run.metrics.fitts.top_3_hardest)
    let mergedHardest :=
      ((allHardest.mergeSort (fun a b => decide (b.id ≤ a.id))).take 3)
    let allFields :=
      (validRuns.flatMap (fun run => run.metrics.typing_ratio_.free_text_fields)).eraseDups
    let bestMaxIdRun := validRuns.foldl
      (fun best run => if run.metrics.fitts.max_id > best.metrics.fitts.max_id then run else best)
      baseReport
    .ok
      { metadata :=
          { run_count := some (validRuns.length : ℚ), averaged := true }
        metrics :=
          { click_count :=
              { total := avg jsRound (fun r => r.metrics.click_count.total)
                productive := avg jsRound (fun r => r.metrics.click_count.productive)
                ceremonial := avg jsRound (fun r => r.metrics.click_count.ceremonial)
                wasted := avg jsRound (fun r => r.metrics.click_count.wasted) }
            time_on_task :=
              { total_ms := avg jsRound (fun r => r.metrics.time_on_task.total_ms) }
            fitts :=
              { cumulative_id := avg jsRound2 (fun r => r.metrics.fitts.cumulative_id)
                average_id := avg jsRound2 (fun r => r.metrics.fitts.average_id)
                max_id := avg jsRound2 (fun r => r.metrics.fitts.max_id)
                max_id_element := bestMaxIdRun.metrics.fitts.max_id_element
                top_3_hardest := mergedHardest }
            context_switches :=
              { total := avg jsRound (fun r => r.metrics.context_switches.total)
                ratio_ := avg jsRound2 (fun r => r.metrics.context_switches.ratio_) }
            shortcut_coverage :=
              { shortcuts_used :=
                  avg jsRound (fun r => r.metrics.shortcut_coverage.shortcuts_used) }
            typing_ratio_ :=
              { free_text_inputs :=
                  avg jsRound (fun r => r.metrics.typing_ratio_.free_text_inputs)
                constrained_inputs :=
                  avg jsRound (fun r => r.metrics.typing_ratio_.constrained_inputs)
                ratio_ := avg jsRound2 (fun r => r.metrics.typing_ratio_.ratio_)
                free_text_fields := allFields }
            scanning_distance :=
              { cumulative_px :=
                  avg jsRound (fun r => r.metrics.scanning_distance.cumulative_px)
                average_px := avg jsRound (fun r => r.metrics.scanning_distance.average_px)
                max_single_px :=
                  avg jsRound (fun r => r.metrics.scanning_distance.max_single_px) }
            scroll_distance :=
              { total_px := avg jsRound (fun r => r.metrics.scroll_distance.total_px)
                page_scroll_px := some (avg jsRound
                  (fun r => (r.metrics.scroll_distance.page_scroll_px).getD 0))
                container_scroll_px := some (avg jsRound
                  (fun r => (r.metrics.scroll_distance.container_scroll_px).getD 0))
                scroll_events := some (avg jsRound
                  (fun r => (r.metrics.scroll_distance.scroll_events).getD 0)) }
            mouse_travel :=
              { total_px := avg jsRound (fun r => r.metrics.mouse_travel.total_px)
                idle_travel_px := avg jsRound (fun r => r.metrics.mouse_travel.idle_travel_px)
                move_events := avg jsRound (fun r => r.metrics.mouse_travel.move_events)
                path_efficiency := some (avg jsRound2
                  (fun r => (r.metrics.mouse_travel.path_efficiency).getD 0)) }
            composite_score := m.composite_score }
        composite_top := some (avg jsRound2 (fun r => r.composite_top.getD 0)) }

/-- The download handler of app.ts lines 711–732: with no runs, or when
buildAveragedReport throws, it returns without writing any file; otherwise the
averaged report is the exported artifact. -/
def exportAveragedReport (runs : List (Option AvgReport)) : Option AvgReport :=
  if runs.length = 0 then none
  else
    match buildAveragedReport runs with
    | .error _ => none
    | .ok r => some r

/-! ## Field-effect lemmas for the engine processors -/

lemma classifyAndCount_total (m : Metrics) (p : ClickPayload) :
    (classifyAndCount m p).click_count.total = m.click_count.total + 1 := by
  unfold classifyAndCount
  split_ifs <;> rfl

lemma classifyAndCount_buckets (m : Metrics) (p : ClickPayload) :
    (p.classification = some "wasted"
      ∧ (classifyAndCount m p).click_count.wasted = m.click_count.wasted + 1
      ∧ (classifyAndCount m p).click_count.productive = m.click_count.productive
      ∧ (classifyAndCount m p).click_count.ceremonial = m.click_count.ceremonial)
    ∨ (p.classification = some "ceremonial"
      ∧ (classifyAndCount m p).click_count.ceremonial = m.click_count.ceremonial + 1
      ∧ (classifyAndCount m p).click_count.productive = m.click_count.productive
      ∧ (classifyAndCount m p).click_count.wasted = m.click_count.wasted)
    ∨ (p.classification ≠ some "wasted" ∧ p.classification ≠ some "ceremonial"
      ∧ (classifyAndCount m p).click_count.productive = m.click_count.productive + 1
      ∧ (classifyAndCount m p).click_count.ceremonial = m.click_count.ceremonial
      ∧ (classifyAndCount m p).click_count.wasted = m.click_count.wasted) := by
  unfold classifyAndCount
  split_ifs with h1 h2 h3 h4 <;> simp_all

lemma classifyAndCount_fitts (m : Metrics) (p : ClickPayload) :
    (classifyAndCount m p).fitts = m.fitts := by
  unfold classifyAndCount
  split_ifs <;> rfl

lemma classifyAndCount_scanning (m : Metrics) (p : ClickPayload) :
    (classifyAndCount m p).scanning_distance = m.scanning_distance := by
  unfold classifyAndCount
  split_ifs <;> rfl

lemma classifyAndCount_click_count_congr (m m' : Metrics) (p : ClickPayload)
    (h : m.click_count = m'.click_count) :
    (classifyAndCount m p).click_count = (classifyAndCount m' p).click_count := by
  unfold classifyAndCount
  split_ifs <;> simp_all

lemma computeFittsAndScanning_click_count (m : Metrics) (p : ClickPayload)
    (ct : String) (s : SessionState) :
    (computeFittsAndScanning m p ct s).1.click_count = m.click_count := by
  unfold computeFittsAndScanning
  cases s.lastClickPosition <;> dsimp only <;> split_ifs <;> rfl

lemma computeFittsAndScanning_avg_pos (m : Metrics) (p : ClickPayload)
    (ct : String) (s : SessionState) (h : 0 < m.click_count.total - 1) :
    (computeFittsAndScanning m p ct s).1.fitts.average_id
        = (computeFittsAndScanning m p ct s).1.fitts.cumulative_id
            / ((m.click_count.total - 1 : ℕ) : ℝ)
    ∧ (computeFittsAndScanning m p ct s).1.scanning_distance.average_px
        = (computeFittsAndScanning m p ct s).1.scanning_distance.cumulative_px
            / ((m.click_count.total - 1 : ℕ) : ℝ) := by
  unfold computeFittsAndScanning
  cases s.lastClickPosition <;> dsimp only <;> split_ifs <;> simp_all

lemma computeFittsAndScanning_avg_zero (m : Metrics) (p : ClickPayload)
    (ct : String) (s : SessionState) (h : m.click_count.total - 1 = 0) :
    (computeFittsAndScanning m p ct s).1.fitts.average_id = m.fitts.average_id
    ∧ (computeFittsAndScanning m p ct s).1.scanning_distance.average_px
        = m.scanning_distance.average_px := by
  unfold computeFittsAndScanning
  cases s.lastClickPosition <;> dsimp only <;> split_ifs <;> simp_all

lemma appendActionLog_metrics (r : BenchmarkReport) (p : ClickPayload) :
    (appendActionLog r p).metrics = r.metrics := by
  unfold appendActionLog
  dsimp only

lemma writeComposite_fields (m : Metrics) :
    (writeComposite m).click_count = m.click_count
    ∧ (writeComposite m).fitts = m.fitts
    ∧ (writeComposite m).scanning_distance = m.scanning_distance
    ∧ (writeComposite m).context_switches = m.context_switches
    ∧ (writeComposite m).scroll_distance = m.scroll_distance
    ∧ (writeComposite m).time_on_task = m.time_on_task
    ∧ (writeComposite m).mouse_travel = m.mouse_travel := by
  exact ⟨rfl, rfl, rfl, rfl, rfl, rfl, rfl⟩

lemma detectIdleGap_metrics (r : BenchmarkReport) (p : EventPayload)
    (s : SessionState) (now : ℝ) :
    (detectIdleGap r p s now).1.metrics.click_count = r.metrics.click_count
    ∧ (detectIdleGap r p s now).1.metrics.fitts = r.metrics.fitts
    ∧ (detectIdleGap r p s now).1.metrics.scanning_distance = r.metrics.scanning_distance
    ∧ (detectIdleGap r p s now).1.metrics.context_switches = r.metrics.context_switches
    ∧ (detectIdleGap r p s now).1.metrics.scroll_distance = r.metrics.scroll_distance
    ∧ (detectIdleGap r p s now).1.metrics.mouse_travel = r.metrics.mouse_travel := by
  unfold detectIdleGap
  cases s.lastActionTime <;> dsimp only
  · exact ⟨rfl, rfl, rfl, rfl, rfl, rfl⟩
  · split_ifs <;> exact ⟨rfl, rfl, rfl, rfl, rfl, rfl⟩

lemma detectIdleGap_snd (r : BenchmarkReport) (p : EventPayload)
    (s : SessionState) (now : ℝ) :
    (detectIdleGap r p s now).2 = { s with lastActionTime := some now } := rfl

/-! ## Case equations for the dispatcher -/

lemma handleEvent_not_recording (s : SessionState) (p : EventPayload) (w : ℝ)
    (h : s.isRecording = false) : handleEventInternal s p w = s := by
  unfold handleEventInternal
  rw [h]
  rfl

lemma handleEvent_no_report (s : SessionState) (p : EventPayload) (w : ℝ)
    (h : s.currentRecording = none) : handleEventInternal s p w = s := by
  unfold handleEventInternal
  rw [h]
  split_ifs <;> rfl

lemma handleEvent_recording (s : SessionState) (p : EventPayload) (w : ℝ)
    (r : BenchmarkReport) (h : s.isRecording = true) (h2 : s.currentRecording = some r) :
    handleEventInternal s p w = handleStep r p s (eventNow p w) := by
  unfold handleEventInternal
  rw [h, h2]
  rfl

lemma handleStep_click (r : BenchmarkReport) (c : ClickPayload)
    (s : SessionState) (now : ℝ) :
    handleStep r (.click c) s now =
      { (processClickEvent (detectIdleGap r (.click c) s now).1 c
            (detectIdleGap r (.click c) s now).2).2.1 with
          currentRecording := some
            { (processClickEvent (detectIdleGap r (.click c) s now).1 c
                  (detectIdleGap r (.click c) s now).2).1 with
                metrics := writeComposite
                  (processClickEvent (detectIdleGap r (.click c) s now).1 c
                    (detectIdleGap r (.click c) s now).2).1.metrics } } := rfl

lemma handleStep_scroll (r : BenchmarkReport) (sc : ScrollPayload)
    (s : SessionState) (now : ℝ) :
    handleStep r (.scroll_update sc) s now =
      { (detectIdleGap r (.scroll_update sc) s now).2 with
          currentRecording := some
            { (processScrollEvent (detectIdleGap r (.scroll_update sc) s now).1 sc).1 with
                metrics := writeComposite
                  (processScrollEvent (detectIdleGap r (.scroll_update sc) s now).1 sc).1.metrics } } := rfl

lemma handleStep_keyboard (r : BenchmarkReport) (k : KeyboardPayload)
    (s : SessionState) (now : ℝ) :
    handleStep r (.keyboard_update k) s now =
      { (processKeyboardEvent (detectIdleGap r (.keyboard_update k) s now).1 k
            (detectIdleGap r (.keyboard_update k) s now).2).2.1 with
          currentRecording := some
            { (processKeyboardEvent (detectIdleGap r (.keyboard_update k) s now).1 k
                  (detectIdleGap r (.keyboard_update k) s now).2).1 with
                metrics := writeComposite
                  (processKeyboardEvent (detectIdleGap r (.keyboard_update k) s now).1 k
                    (detectIdleGap r (.keyboard_update k) s now).2).1.metrics } } := rfl

lemma handleStep_mouse_travel (r : BenchmarkReport) (mt : MouseTravelPayload)
    (s : SessionState) (now : ℝ) :
    handleStep r (.mouse_travel_update mt) s now =
      { s with
          currentRecording := some
            ({ (processMouseTravelEvent r mt).1 with
                metrics := writeComposite (processMouseTravelEvent r mt).1.metrics }) } := rfl

/-! ## More processor projections -/

lemma processClickEvent_metrics (r : BenchmarkReport) (c : ClickPayload) (s : SessionState) :
    (processClickEvent r c s).1.metrics
      = (computeFittsAndScanning (classifyAndCount r.metrics c) c (clickTargetOf c)
          { s with lastActionLabel := some (clickTargetOf c) }).1 := by
  unfold processClickEvent
  dsimp only
  rw [appendActionLog_metrics]

lemma processClickEvent_click_count (r : BenchmarkReport) (c : ClickPayload) (s : SessionState) :
    (processClickEvent r c s).1.metrics.click_count
      = (classifyAndCount r.metrics c).click_count := by
  rw [processClickEvent_metrics, computeFittsAndScanning_click_count]

lemma processScrollEvent_fields (r : BenchmarkReport) (sc : ScrollPayload) :
    (processScrollEvent r sc).1.metrics.click_count = r.metrics.click_count
    ∧ (processScrollEvent r sc).1.metrics.fitts = r.metrics.fitts
    ∧ (processScrollEvent r sc).1.metrics.scanning_distance = r.metrics.scanning_distance
    ∧ (processScrollEvent r sc).1.metrics.context_switches = r.metrics.context_switches :=
  ⟨rfl, rfl, rfl, rfl⟩

lemma processKeyboardEvent_fields (r : BenchmarkReport) (k : KeyboardPayload) (s : SessionState) :
    (processKeyboardEvent r k s).1.metrics.click_count = r.metrics.click_count
    ∧ (processKeyboardEvent r k s).1.metrics.fitts = r.metrics.fitts
    ∧ (processKeyboardEvent r k s).1.metrics.scanning_distance = r.metrics.scanning_distance
    ∧ (processKeyboardEvent r k s).1.metrics.scroll_distance = r.metrics.scroll_distance :=
  ⟨rfl, rfl, rfl, rfl⟩

lemma processMouseTravelEvent_fields (r : BenchmarkReport) (mt : MouseTravelPayload) :
    (processMouseTravelEvent r mt).1.metrics.click_count = r.metrics.click_count
    ∧ (processMouseTravelEvent r mt).1.metrics.fitts = r.metrics.fitts
    ∧ (processMouseTravelEvent r mt).1.metrics.scanning_distance = r.metrics.scanning_distance
    ∧ (processMouseTravelEvent r mt).1.metrics.context_switches = r.metrics.context_switches :=
  ⟨rfl, rfl, rfl, rfl⟩

lemma classifyAndCount_sum (m : Metrics) (c : ClickPayload) :
    (classifyAndCount m c).click_count.productive
      + (classifyAndCount m c).click_count.ceremonial
      + (classifyAndCount m c).click_count.wasted
    = m.click_count.productive + m.click_count.ceremonial + m.click_count.wasted + 1 := by
  rcases classifyAndCount_buckets m c with ⟨_, h1, h2, h3⟩ | ⟨_, h1, h2, h3⟩ | ⟨_, _, h1, h2, h3⟩ <;>
    omega

lemma reportOf_some (s : SessionState) (r : BenchmarkReport)
    (h : s.currentRecording = some r) : reportOf s = r := by
  simp [reportOf, h]

/-! ## Reachable-report invariants -/

/-- Invariant of C2: the click total equals the sum of the three buckets. -/
def ClickSumInv (r : BenchmarkReport) : Prop :=
  r.metrics.click_count.total =
    r.metrics.click_count.productive + r.metrics.click_count.ceremonial
      + r.metrics.click_count.wasted

lemma clickSum_step (s : SessionState) (p : EventPayload) (w : ℝ)
    (h : ClickSumInv (reportOf s)) : ClickSumInv (reportOf (handleEventInternal s p w)) := by
  cases hrec : s.isRecording with
  | false => rw [handleEvent_not_recording s p w hrec]; exact h
  | true =>
    cases h2 : s.currentRecording with
    | none => rw [handleEvent_no_report s p w h2]; exact h
    | some r =>
      rw [reportOf_some s r h2] at h
      unfold ClickSumInv at h
      rw [handleEvent_recording s p w r hrec h2]
      cases p with
      | click c =>
        rw [handleStep_click, reportOf_some _ _ rfl]
        unfold ClickSumInv
        dsimp only
        rw [(writeComposite_fields _).1, processClickEvent_click_count,
          classifyAndCount_total, classifyAndCount_sum,
          (detectIdleGap_metrics r (.click c) s (eventNow (.click c) w)).1]
        omega
      | scroll_update sc =>
        rw [handleStep_scroll, reportOf_some _ _ rfl]
        unfold ClickSumInv
        dsimp only
        rw [(writeComposite_fields _).1, (processScrollEvent_fields _ _).1,
          (detectIdleGap_metrics r (.scroll_update sc) s (eventNow (.scroll_update sc) w)).1]
        exact h
      | keyboard_update k =>
        rw [handleStep_keyboard, reportOf_some _ _ rfl]
        unfold ClickSumInv
        dsimp only
        rw [(writeComposite_fields _).1, (processKeyboardEvent_fields _ _ _).1,
          (detectIdleGap_metrics r (.keyboard_update k) s (eventNow (.keyboard_update k) w)).1]
        exact h
      | mouse_travel_update mt =>
        rw [handleStep_mouse_travel, reportOf_some _ _ rfl]
        unfold ClickSumInv
        dsimp only
        rw [(writeComposite_fields _).1, (processMouseTravelEvent_fields _ _).1]
        exact h

lemma clickSum_processEvents (s : SessionState) (es : List (EventPayload × ℝ))
    (h : ClickSumInv (reportOf s)) : ClickSumInv (reportOf (processEvents s es)) := by
  induction es generalizing s with
  | nil => exact h
  | cons e es ih => exact ih _ (clickSum_step s e.1 e.2 h)

lemma reportOf_start (t : ℝ) : reportOf (startRecording initialState t) = emptyReport := rfl

/-- C2: for every report reachable from the freshly-started empty report by
processing any sequence of events, the click total equals productive +
ceremonial + wasted, and each processed click event increments the total and
exactly one of the three buckets. -/
theorem c2_click_count_invariant :
    (∀ (t : ℝ) (es : List (EventPayload × ℝ)),
      (reportAfter t es).metrics.click_count.total
        = (reportAfter t es).metrics.click_count.productive
          + (reportAfter t es).metrics.click_count.ceremonial
          + (reportAfter t es).metrics.click_count.wasted)
    ∧ (∀ (m : Metrics) (c : ClickPayload),
      (classifyAndCount m c).click_count.total = m.click_count.total + 1
      ∧ (((classifyAndCount m c).click_count.productive = m.click_count.productive + 1
            ∧ (classifyAndCount m c).click_count.ceremonial = m.click_count.ceremonial
            ∧ (classifyAndCount m c).click_count.wasted = m.click_count.wasted)
        ∨ ((classifyAndCount m c).click_count.productive = m.click_count.productive
            ∧ (classifyAndCount m c).click_count.ceremonial = m.click_count.ceremonial + 1
            ∧ (classifyAndCount m c).click_count.wasted = m.click_count.wasted)
        ∨ ((classifyAndCount m c).click_count.productive = m.click_count.productive
            ∧ (classifyAndCount m c).click_count.ceremonial = m.click_count.ceremonial
            ∧ (classifyAndCount m c).click_count.wasted = m.click_count.wasted + 1))) := by
  constructor
  · intro t es
    exact clickSum_processEvents (startRecording initialState t) es (by rw [reportOf_start]; rfl)
  · intro m c
    refine ⟨classifyAndCount_total m c, ?_⟩
    rcases classifyAndCount_buckets m c with ⟨_, h1, h2, h3⟩ | ⟨_, h1, h2, h3⟩ | ⟨_, _, h1, h2, h3⟩
    · exact .inr (.inr ⟨h2, h3, h1⟩)
    · exact .inr (.inl ⟨h2, h1, h3⟩)
    · exact .inl ⟨h1, h2, h3⟩

/-- Invariant of C4: both averages follow the `cumulative / (total - 1)` rule
with zero below two clicks. -/
def AvgRuleInv (r : BenchmarkReport) : Prop :=
  (r.metrics.click_count.total ≤ 1 →
      r.metrics.fitts.average_id = 0 ∧ r.metrics.scanning_distance.average_px = 0)
  ∧ (2 ≤ r.metrics.click_count.total →
      r.metrics.fitts.average_id
          = r.metrics.fitts.cumulative_id / ((r.metrics.click_count.total - 1 : ℕ) : ℝ)
      ∧ r.metrics.scanning_distance.average_px
          = r.metrics.scanning_distance.cumulative_px
              / ((r.metrics.click_count.total - 1 : ℕ) : ℝ))

lemma avgRule_step (s : SessionState) (p : EventPayload) (w : ℝ)
    (h : AvgRuleInv (reportOf s)) : AvgRuleInv (reportOf (handleEventInternal s p w)) := by
  cases hrec : s.isRecording with
  | false => rw [handleEvent_not_recording s p w hrec]; exact h
  | true =>
    cases h2 : s.currentRecording with
    | none => rw [handleEvent_no_report s p w h2]; exact h
    | some r =>
      rw [reportOf_some s r h2] at h
      rw [handleEvent_recording s p w r hrec h2]
      cases p with
      | click c =>
        rw [handleStep_click, reportOf_some _ _ rfl]
        unfold AvgRuleInv
        dsimp only
        rw [(writeComposite_fields _).1, (writeComposite_fields _).2.1,
          (writeComposite_fields _).2.2.1]
        rw [processClickEvent_metrics, computeFittsAndScanning_click_count]
        have hTot : (classifyAndCount
              (detectIdleGap r (.click c) s (eventNow (.click c) w)).1.metrics c).click_count.total
            = r.metrics.click_count.total + 1 := by
          rw [classifyAndCount_total,
            (detectIdleGap_metrics r (.click c) s (eventNow (.click c) w)).1]
        constructor
        · intro hle
          have h0 : (classifyAndCount
                (detectIdleGap r (.click c) s (eventNow (.click c) w)).1.metrics
                  c).click_count.total - 1 = 0 := by omega
          have hz := computeFittsAndScanning_avg_zero
            (classifyAndCount (detectIdleGap r (.click c) s (eventNow (.click c) w)).1.metrics c)
            c (clickTargetOf c)
            { (detectIdleGap r (.click c) s (eventNow (.click c) w)).2 with
                lastActionLabel := some (clickTargetOf c) } h0
          rw [hz.1, hz.2, classifyAndCount_fitts, classifyAndCount_scanning,
            (detectIdleGap_metrics r (.click c) s (eventNow (.click c) w)).2.1,
            (detectIdleGap_metrics r (.click c) s (eventNow (.click c) w)).2.2.1]
          exact h.1 (by omega)
        · intro hge
          have h0 : 0 < (classifyAndCount
                (detectIdleGap r (.click c) s (eventNow (.click c) w)).1.metrics
                  c).click_count.total - 1 := by omega
          exact computeFittsAndScanning_avg_pos
            (classifyAndCount (detectIdleGap r (.click c) s (eventNow (.click c) w)).1.metrics c)
            c (clickTargetOf c)
            { (detectIdleGap r (.click c) s (eventNow (.click c) w)).2 with
                lastActionLabel := some (clickTargetOf c) } h0
      | scroll_update sc =>
        rw [handleStep_scroll, reportOf_some _ _ rfl]
        unfold AvgRuleInv
        dsimp only
        rw [(writeComposite_fields _).1, (writeComposite_fields _).2.1,
          (writeComposite_fields _).2.2.1,
          (processScrollEvent_fields _ _).1, (processScrollEvent_fields _ _).2.1,
          (processScrollEvent_fields _ _).2.2.1,
          (detectIdleGap_metrics r (.scroll_update sc) s (eventNow (.scroll_update sc) w)).1,
          (detectIdleGap_metrics r (.scroll_update sc) s (eventNow (.scroll_update sc) w)).2.1,
          (detectIdleGap_metrics r (.scroll_update sc) s (eventNow (.scroll_update sc) w)).2.2.1]
        exact h
      | keyboard_update k =>
        rw [handleStep_keyboard, reportOf_some _ _ rfl]
        unfold AvgRuleInv
        dsimp only
        rw [(writeComposite_fields _).1, (writeComposite_fields _).2.1,
          (writeComposite_fields _).2.2.1,
          (processKeyboardEvent_fields _ _ _).1, (processKeyboardEvent_fields _ _ _).2.1,
          (processKeyboardEvent_fields _ _ _).2.2.1,
          (detectIdleGap_metrics r (.keyboard_update k) s (eventNow (.keyboard_update k) w)).1,
          (detectIdleGap_metrics r (.keyboard_update k) s (eventNow (.keyboard_update k) w)).2.1,
          (detectIdleGap_metrics r (.keyboard_update k) s (eventNow (.keyboard_update k) w)).2.2.1]
        exact h
      | mouse_travel_update mt =>
        rw [handleStep_mouse_travel, reportOf_some _ _ rfl]
        unfold AvgRuleInv
        dsimp only
        rw [(writeComposite_fields _).1, (writeComposite_fields _).2.1,
          (writeComposite_fields _).2.2.1,
          (processMouseTravelEvent_fields _ _).1, (processMouseTravelEvent_fields _ _).2.1,
          (processMouseTravelEvent_fields _ _).2.2.1]
        exact h

lemma avgRule_processEvents (s : SessionState) (es : List (EventPayload × ℝ))
    (h : AvgRuleInv (reportOf s)) : AvgRuleInv (reportOf (processEvents s es)) := by
  induction es generalizing s with
  | nil => exact h
  | cons e es ih => exact ih _ (avgRule_step s e.1 e.2 h)

/-- C4: in every reachable report the Fitts and scanning averages equal their
cumulative counterparts divided by `clickCount.total - 1` once at least two
clicks were processed, and are 0 with at most one click. -/
theorem c4_averages (t : ℝ) (es : List (EventPayload × ℝ)) :
    (reportAfter t es).metrics.fitts.average_id
      = (if (reportAfter t es).metrics.click_count.total ≤ 1 then 0
         else (reportAfter t es).metrics.fitts.cumulative_id
            / (((reportAfter t es).metrics.click_count.total - 1 : ℕ) : ℝ))
    ∧ (reportAfter t es).metrics.scanning_distance.average_px
      = (if (reportAfter t es).metrics.click_count.total ≤ 1 then 0
         else (reportAfter t es).metrics.scanning_distance.cumulative_px
            / (((reportAfter t es).metrics.click_count.total - 1 : ℕ) : ℝ)) := by
  have h : AvgRuleInv (reportAfter t es) :=
    avgRule_processEvents (startRecording initialState t) es
      (by
        rw [reportOf_start]
        exact ⟨fun _ => ⟨rfl, rfl⟩, fun hh => absurd hh (by decide)⟩)
  constructor
  · split_ifs with hle
    · exact (h.1 hle).1
    · exact (h.2 (by omega)).1
  · split_ifs with hle
    · exact (h.1 hle).2
    · exact (h.2 (by omega)).2

/-- Invariant of C1: the stored composite score equals the weighted formula
over the current cumulative fields. -/
def CompositeInv (r : BenchmarkReport) : Prop :=
  r.metrics.composite_score
    = (r.metrics.context_switches.total : ℝ) * 1.5
      + r.metrics.fitts.cumulative_id * 1.0
      + r.metrics.scroll_distance.total_px * 0.005

lemma compositeInv_write (r : BenchmarkReport) (m : Metrics) :
    CompositeInv { r with metrics := writeComposite m } := rfl

lemma compositeInv_empty : CompositeInv emptyReport := by
  unfold CompositeInv
  show (0 : ℝ) = ((0 : ℕ) : ℝ) * 1.5 + 0 * 1.0 + 0 * 0.005
  norm_num

lemma composite_step (s : SessionState) (p : EventPayload) (w : ℝ)
    (h : CompositeInv (reportOf s)) : CompositeInv (reportOf (handleEventInternal s p w)) := by
  cases hrec : s.isRecording with
  | false => rw [handleEvent_not_recording s p w hrec]; exact h
  | true =>
    cases h2 : s.currentRecording with
    | none => rw [handleEvent_no_report s p w h2]; exact h
    | some r =>
      rw [handleEvent_recording s p w r hrec h2]
      cases p with
      | click c =>
        rw [handleStep_click, reportOf_some _ _ rfl]
        exact compositeInv_write _ _
      | scroll_update sc =>
        rw [handleStep_scroll, reportOf_some _ _ rfl]
        exact compositeInv_write _ _
      | keyboard_update k =>
        rw [handleStep_keyboard, reportOf_some _ _ rfl]
        exact compositeInv_write _ _
      | mouse_travel_update mt =>
        rw [handleStep_mouse_travel, reportOf_some _ _ rfl]
        exact compositeInv_write _ _

lemma composite_processEvents (s : SessionState) (es : List (EventPayload × ℝ))
    (h : CompositeInv (reportOf s)) : CompositeInv (reportOf (processEvents s es)) := by
  induction es generalizing s with
  | nil => exact h
  | cons e es ih => exact ih _ (composite_step s e.1 e.2 h)

lemma stop_composite (s : SessionState) (now : ℝ) :
    CompositeInv ((stopRecording s now).1.getD emptyReport) := by
  unfold stopRecording
  split_ifs with hrec
  · exact compositeInv_empty
  · cases hc : s.currentRecording with
    | none => exact compositeInv_empty
    | some r => exact compositeInv_write _ _

/-- C1: after every state-changing event and again at stop(), the report's
composite score equals contextSwitches.total × 1.5 + fitts.cumulativeId × 1.0
+ scrollDistance.totalPx × 0.005, and nothing else contributes; a report with
3 context switches, zero cumulative Fitts ID and 2000 px of scroll has
compositeScore = 14.5. -/
theorem c1_composite_score :
    (∀ (t : ℝ) (es : List (EventPayload × ℝ)),
      (reportAfter t es).metrics.composite_score
        = ((reportAfter t es).metrics.context_switches.total : ℝ) * 1.5
          + (reportAfter t es).metrics.fitts.cumulative_id * 1.0
          + (reportAfter t es).metrics.scroll_distance.total_px * 0.005)
    ∧ (∀ (s : SessionState) (now : ℝ),
      ((stopRecording s now).1.getD emptyReport).metrics.composite_score
        = (((stopRecording s now).1.getD emptyReport).metrics.context_switches.total : ℝ) * 1.5
          + ((stopRecording s now).1.getD emptyReport).metrics.fitts.cumulative_id * 1.0
          + ((stopRecording s now).1.getD emptyReport).metrics.scroll_distance.total_px * 0.005)
    ∧ (∀ m : Metrics, m.context_switches.total = 3 → m.fitts.cumulative_id = 0 →
        m.scroll_distance.total_px = 2000 → computeComposite m = 14.5) := by
  refine ⟨?_, ?_, ?_⟩
  · intro t es
    exact composite_processEvents (startRecording initialState t) es
      (by rw [reportOf_start]; exact compositeInv_empty)
  · intro s now
    exact stop_composite s now
  · intro m h1 h2 h3
    unfold computeComposite
    rw [h1, h2, h3]
    norm_num

/-- Witness for C1: the scenario-D report values give composite 14.5. -/
theorem c1_composite_score_witness :
    computeComposite
      { emptyMetrics with
          context_switches :=
            { total := 3, ratio_ := 0.2
              longest_keyboard_streak := some 5, longest_mouse_streak := some 2 }
          scroll_distance :=
            { total_px := 2000, page_scroll_px := some 2000
              container_scroll_px := some 0, total_horizontal_px := some 0
              scroll_events := some 10, heaviest_container := none } } = 14.5 :=
  c1_composite_score.2.2 _ rfl rfl rfl

/-- A keyboard summary payload with all counters zero, used as a sample
dispatched event. -/
def kbSample : KeyboardPayload :=
  { context_switches :=
      { total := 0, ratio_ := 0, longest_keyboard_streak := 0, longest_mouse_streak := 0 }
    shortcuts_used := 0
    typing_ratio_ :=
      { free_text_inputs := 0, constrained_inputs := 0, ratio_ := 0, free_text_fields := [] } }

/-- A session state whose recording flag is on. -/
def recordingOnState : SessionState := { initialState with isRecording := true }

/-- C6: operations arriving in the wrong recording state are no-ops — start()
while already recording leaves the session state unchanged, stop() while not
recording returns nothing and changes no state, and an event dispatched while
not recording is silently dropped with no state change. -/
theorem c6_wrong_state_noop :
    (∀ (s : SessionState) (now : ℝ), s.isRecording = true → startRecording s now = s)
    ∧ (∀ (s : SessionState) (now : ℝ), s.isRecording = false →
        stopRecording s now = (none, s))
    ∧ (∀ (s : SessionState) (p : EventPayload) (w : ℝ), s.isRecording = false →
        handleEventInternal s p w = s) := by
  refine ⟨?_, ?_, ?_⟩
  · intro s now h
    unfold startRecording
    rw [if_pos h]
  · intro s now h
    unfold stopRecording
    rw [if_pos h]
  · intro s p w h
    exact handleEvent_not_recording s p w h

/-- Witness for C6 at concrete states: a recording state is unchanged by
start(), and the idle state unchanged by stop() and by a dispatched event. -/
theorem c6_wrong_state_noop_witness :
    startRecording recordingOnState 42 = recordingOnState
    ∧ stopRecording initialState 7 = (none, initialState)
    ∧ handleEventInternal initialState (.keyboard_update kbSample) 9 = initialState :=
  ⟨c6_wrong_state_noop.1 recordingOnState 42 rfl,
   c6_wrong_state_noop.2.1 initialState 7 rfl,
   c6_wrong_state_noop.2.2 initialState (.keyboard_update kbSample) 9 rfl⟩

/-! ## Scenario A (spec §8): two clicks at (100,100) then (500,100), target
rects 80×32 then 40×20 -/

/-- Scenario A first click: position (100,100) on an 80×32 target. -/
def clickA1 : ClickPayload :=
  { timestamp := 1000, x := 100, y := 100
    classification := none, classificationReason := none
    target := { tagName := "BUTTON", id := none, innerText := some "A"
                rect := { width := 80, height := 32 } } }

/-- Scenario A second click: position (500,100) on a 40×20 target. -/
def clickA2 : ClickPayload :=
  { timestamp := 2000, x := 500, y := 100
    classification := none, classificationReason := none
    target := { tagName := "BUTTON", id := none, innerText := some "B"
                rect := { width := 40, height := 20 } } }

/-! ### Cursor-field projections of the processors -/

lemma computeFittsAndScanning_snd (m : Metrics) (p : ClickPayload)
    (ct : String) (s : SessionState) :
    (computeFittsAndScanning m p ct s).2
      = { s with lastClickPosition := some (p.x, p.y), lastClickTarget := some ct } := rfl

lemma processClickEvent_snd (r : BenchmarkReport) (c : ClickPayload) (s : SessionState) :
    (processClickEvent r c s).2.1
      = { s with lastClickPosition := some (c.x, c.y)
                 lastClickTarget := some (clickTargetOf c)
                 lastActionLabel := some (clickTargetOf c) } := rfl

lemma handleStep_isRecording (r : BenchmarkReport) (p : EventPayload)
    (s : SessionState) (now : ℝ) :
    (handleStep r p s now).isRecording = s.isRecording := by
  cases p with
  | click c => rw [handleStep_click]; rfl
  | scroll_update sc => rw [handleStep_scroll]; rfl
  | keyboard_update k => rw [handleStep_keyboard]; rfl
  | mouse_travel_update mt => rw [handleStep_mouse_travel]

lemma handleStep_currentRecording (r : BenchmarkReport) (p : EventPayload)
    (s : SessionState) (now : ℝ) :
    (handleStep r p s now).currentRecording = some (reportOf (handleStep r p s now)) := by
  cases p with
  | click c => rw [handleStep_click]; rfl
  | scroll_update sc => rw [handleStep_scroll]; rfl
  | keyboard_update k => rw [handleStep_keyboard]; rfl
  | mouse_travel_update mt => rw [handleStep_mouse_travel]; rfl

lemma handleStep_click_cursor (r : BenchmarkReport) (c : ClickPayload)
    (s : SessionState) (now : ℝ) :
    (handleStep r (.click c) s now).lastClickPosition = some (c.x, c.y)
    ∧ (handleStep r (.click c) s now).lastActionTime = some now := by
  rw [handleStep_click]
  exact ⟨rfl, rfl⟩

lemma reportOf_handleStep_click (r : BenchmarkReport) (c : ClickPayload)
    (s : SessionState) (now : ℝ) :
    reportOf (handleStep r (.click c) s now)
      = { (processClickEvent (detectIdleGap r (.click c) s now).1 c
            (detectIdleGap r (.click c) s now).2).1 with
          metrics := writeComposite
            (processClickEvent (detectIdleGap r (.click c) s now).1 c
              (detectIdleGap r (.click c) s now).2).1.metrics } := by
  rw [handleStep_click]
  rfl

/-! ### Idle gap detector case equations -/

lemma detectIdleGap_unset (r : BenchmarkReport) (p : EventPayload)
    (s : SessionState) (now : ℝ) (h : s.lastActionTime = none) :
    detectIdleGap r p s now = (r, { s with lastActionTime := some now }) := by
  unfold detectIdleGap
  rw [h]

lemma detectIdleGap_no_gap (r : BenchmarkReport) (p : EventPayload)
    (s : SessionState) (now la : ℝ) (h : s.lastActionTime = some la)
    (h0 : ¬ la = 0) (h1 : ¬ now - la > IDLE_GAP_MS) :
    detectIdleGap r p s now = (r, { s with lastActionTime := some now }) := by
  unfold detectIdleGap
  rw [h]
  dsimp only
  rw [if_neg h0, if_neg h1]

lemma detectIdleGap_gap (r : BenchmarkReport) (p : EventPayload)
    (s : SessionState) (now la : ℝ) (h : s.lastActionTime = some la)
    (h0 : ¬ la = 0) (h1 : now - la > IDLE_GAP_MS) :
    detectIdleGap r p s now =
      ({ r with metrics.time_on_task.idle_gaps :=
          r.metrics.time_on_task.idle_gaps ++
            [{ gap_ms := now - la
               after_action := jsStrOr s.lastActionLabel "start"
               before_action := deriveActionLabel p }] },
       { s with lastActionTime := some now }) := by
  unfold detectIdleGap
  rw [h]
  dsimp only
  rw [if_neg h0, if_pos h1]

/-! ### Scanning / Fitts accumulation equations -/

lemma computeFittsAndScanning_none (m : Metrics) (p : ClickPayload)
    (ct : String) (s : SessionState) (h : s.lastClickPosition = none) :
    (computeFittsAndScanning m p ct s).1.scanning_distance.cumulative_px
        = m.scanning_distance.cumulative_px
    ∧ (computeFittsAndScanning m p ct s).1.fitts.cumulative_id
        = m.fitts.cumulative_id := by
  unfold computeFittsAndScanning
  rw [h]
  dsimp only
  split_ifs <;> exact ⟨rfl, rfl⟩

lemma computeFittsAndScanning_scan_cum (m : Metrics) (p : ClickPayload)
    (ct : String) (s : SessionState) (lx ly : ℝ)
    (h : s.lastClickPosition = some (lx, ly)) :
    (computeFittsAndScanning m p ct s).1.scanning_distance.cumulative_px
      = m.scanning_distance.cumulative_px
        + Real.sqrt ((p.x - lx) * (p.x - lx) + (p.y - ly) * (p.y - ly)) := by
  unfold computeFittsAndScanning
  rw [h]
  dsimp only
  split_ifs <;> rfl

lemma computeFittsAndScanning_fitts_cum (m : Metrics) (p : ClickPayload)
    (ct : String) (s : SessionState) (lx ly : ℝ)
    (h : s.lastClickPosition = some (lx, ly)) :
    (computeFittsAndScanning m p ct s).1.fitts.cumulative_id
      = m.fitts.cumulative_id
        + (if (p.target.rect.width * |Real.cos (jsAtan2 |p.y - ly| |p.x - lx|)|
                + p.target.rect.height * |Real.sin (jsAtan2 |p.y - ly| |p.x - lx|)| > 0
              ∧ Real.sqrt ((p.x - lx) * (p.x - lx) + (p.y - ly) * (p.y - ly)) > 0)
           then Real.logb 2
              (Real.sqrt ((p.x - lx) * (p.x - lx) + (p.y - ly) * (p.y - ly))
                / (p.target.rect.width * |Real.cos (jsAtan2 |p.y - ly| |p.x - lx|)|
                    + p.target.rect.height * |Real.sin (jsAtan2 |p.y - ly| |p.x - lx|)|) + 1)
           else 0) := by
  unfold computeFittsAndScanning
  rw [h]
  dsimp only
  split_ifs <;> simp

/-! ### Scenario A evaluation: numeric facts -/

lemma sqrt_160000 : Real.sqrt (160000 : ℝ) = 400 := by
  rw [show (160000 : ℝ) = 400 ^ 2 by norm_num]
  exact Real.sqrt_sq (by norm_num)

lemma jsAtan2_zero_pos : jsAtan2 (0 : ℝ) 400 = 0 := by
  unfold jsAtan2
  rw [if_pos (by norm_num : (0:ℝ) < 400)]
  norm_num [Real.arctan_zero]

/-- The state after the first scenario-A click. -/
noncomputable def stepA1 : SessionState :=
  handleEventInternal (startRecording initialState 500) (.click clickA1) 1000

/-- The state after both scenario-A clicks. -/
noncomputable def stepA2 : SessionState :=
  handleEventInternal stepA1 (.click clickA2) 2000

lemma eventNow_clickA1 : eventNow (.click clickA1) 1000 = 1000 := by
  norm_num [eventNow, clickA1]

lemma eventNow_clickA2 : eventNow (.click clickA2) 2000 = 2000 := by
  norm_num [eventNow, clickA2]

lemma stepA1_eq : stepA1 = handleStep emptyReport (.click clickA1)
    (startRecording initialState 500) 1000 := by
  unfold stepA1
  rw [handleEvent_recording _ _ _ emptyReport rfl rfl, eventNow_clickA1]

lemma stepA1_isRecording : stepA1.isRecording = true := by
  rw [stepA1_eq, handleStep_isRecording]
  rfl

lemma stepA1_currentRecording : stepA1.currentRecording = some (reportOf stepA1) := by
  rw [stepA1_eq]
  exact handleStep_currentRecording _ _ _ _

lemma stepA1_pos : stepA1.lastClickPosition = some (100, 100) := by
  rw [stepA1_eq]
  exact (handleStep_click_cursor _ _ _ _).1

lemma stepA1_act : stepA1.lastActionTime = some 1000 := by
  rw [stepA1_eq]
  exact (handleStep_click_cursor _ _ _ _).2

lemma stepA1_scan : (reportOf stepA1).metrics.scanning_distance.cumulative_px = 0 := by
  rw [stepA1_eq, reportOf_handleStep_click, detectIdleGap_unset _ _ _ _ rfl]
  dsimp only
  rw [(writeComposite_fields _).2.2.1, processClickEvent_metrics,
    (computeFittsAndScanning_none _ _ _ _ rfl).1, classifyAndCount_scanning]
  rfl

lemma stepA1_fitts : (reportOf stepA1).metrics.fitts.cumulative_id = 0 := by
  rw [stepA1_eq, reportOf_handleStep_click, detectIdleGap_unset _ _ _ _ rfl]
  dsimp only
  rw [(writeComposite_fields _).2.1, processClickEvent_metrics,
    (computeFittsAndScanning_none _ _ _ _ rfl).2, classifyAndCount_fitts]
  rfl

lemma computeFittsAndScanning_fst_congr (m : Metrics) (p : ClickPayload) (ct : String)
    (s s' : SessionState) (h : s.lastClickPosition = s'.lastClickPosition)
    (h2 : s.lastClickTarget = s'.lastClickTarget) :
    (computeFittsAndScanning m p ct s).1 = (computeFittsAndScanning m p ct s').1 := by
  unfold computeFittsAndScanning
  rw [h, h2]

lemma stepA2_eq : stepA2 = handleStep (reportOf stepA1) (.click clickA2) stepA1 2000 := by
  unfold stepA2
  rw [handleEvent_recording _ _ _ (reportOf stepA1) stepA1_isRecording
    stepA1_currentRecording, eventNow_clickA2]

lemma stepA2_detect : detectIdleGap (reportOf stepA1) (.click clickA2) stepA1 2000
    = (reportOf stepA1, { stepA1 with lastActionTime := some 2000 }) :=
  detectIdleGap_no_gap _ _ _ _ 1000 stepA1_act (by norm_num) (by norm_num [IDLE_GAP_MS])

lemma stepA2_scan : (reportOf stepA2).metrics.scanning_distance.cumulative_px = 400 := by
  rw [stepA2_eq, reportOf_handleStep_click, stepA2_detect]
  dsimp only
  rw [(writeComposite_fields _).2.2.1]
  unfold processClickEvent
  dsimp only
  rw [appendActionLog_metrics]
  dsimp only
  unfold computeFittsAndScanning
  dsimp only
  rw [stepA1_pos]
  dsimp only
  simp only [apply_ite Metrics.scanning_distance, apply_ite ScanningDistance.cumulative_px,
    ite_self]
  rw [classifyAndCount_scanning, stepA1_scan]
  norm_num [clickA2, sqrt_160000]

lemma stepA2_fitts : (reportOf stepA2).metrics.fitts.cumulative_id
    = Real.logb 2 (400 / 40 + 1) := by
  rw [stepA2_eq, reportOf_handleStep_click, stepA2_detect]
  dsimp only
  rw [(writeComposite_fields _).2.1]
  unfold processClickEvent
  dsimp only
  rw [appendActionLog_metrics]
  dsimp only
  unfold computeFittsAndScanning
  dsimp only
  rw [stepA1_pos]
  dsimp only
  simp only [apply_ite Metrics.fitts, apply_ite FittsMetric.cumulative_id, ite_self]
  rw [classifyAndCount_fitts, stepA1_fitts]
  have hdy : |clickA2.y - (100:ℝ)| = 0 := by norm_num [clickA2]
  have hdx : |clickA2.x - (100:ℝ)| = 400 := by
    rw [show clickA2.x - (100:ℝ) = 400 by norm_num [clickA2]]
    exact abs_of_nonneg (by norm_num)
  have hsq : Real.sqrt ((clickA2.x - 100) * (clickA2.x - 100)
      + (clickA2.y - 100) * (clickA2.y - 100)) = 400 := by
    rw [show (clickA2.x - 100) * (clickA2.x - 100)
        + (clickA2.y - 100) * (clickA2.y - 100) = (160000:ℝ) by norm_num [clickA2]]
    exact sqrt_160000
  rw [hdy, hdx, jsAtan2_zero_pos, Real.cos_zero, Real.sin_zero, abs_one, abs_zero, hsq,
    show clickA2.target.rect.width = (40:ℝ) from rfl,
    show clickA2.target.rect.height = (20:ℝ) from rfl,
    if_pos (⟨by norm_num, by norm_num⟩ :
      (40:ℝ) * 1 + 20 * 0 > 0 ∧ (400:ℝ) > 0)]
  norm_num

/-- A session state with a previous click at (100, 100). -/
def posState : SessionState := { initialState with lastClickPosition := some (100, 100) }

/-- C3: between consecutive clicks the processor adds the euclidean distance to
the scanning accumulator and, exactly when the directional effective width and
the distance are positive, adds the Shannon index of difficulty to the Fitts
accumulator (degenerate geometry skips the ID silently); the first click of a
session contributes to neither; scenario A (clicks at (100,100) then (500,100)
on 80×32 and 40×20 targets) yields cumulativePx = 400 and
cumulativeId = log2(400/40 + 1). -/
theorem c3_fitts_scanning_accumulation :
    (∀ (m : Metrics) (p : ClickPayload) (ct : String) (s : SessionState) (lx ly : ℝ),
      s.lastClickPosition = some (lx, ly) →
      (computeFittsAndScanning m p ct s).1.scanning_distance.cumulative_px
          = m.scanning_distance.cumulative_px
            + Real.sqrt ((p.x - lx) * (p.x - lx) + (p.y - ly) * (p.y - ly))
      ∧ (computeFittsAndScanning m p ct s).1.fitts.cumulative_id
          = m.fitts.cumulative_id
            + (if (p.target.rect.width * |Real.cos (jsAtan2 |p.y - ly| |p.x - lx|)|
                    + p.target.rect.height * |Real.sin (jsAtan2 |p.y - ly| |p.x - lx|)| > 0
                  ∧ Real.sqrt ((p.x - lx) * (p.x - lx) + (p.y - ly) * (p.y - ly)) > 0)
               then Real.logb 2
                  (Real.sqrt ((p.x - lx) * (p.x - lx) + (p.y - ly) * (p.y - ly))
                    / (p.target.rect.width * |Real.cos (jsAtan2 |p.y - ly| |p.x - lx|)|
                        + p.target.rect.height * |Real.sin (jsAtan2 |p.y - ly| |p.x - lx|)|) + 1)
               else 0))
    ∧ (∀ (m : Metrics) (p : ClickPayload) (ct : String) (s : SessionState),
      s.lastClickPosition = none →
      (computeFittsAndScanning m p ct s).1.scanning_distance.cumulative_px
          = m.scanning_distance.cumulative_px
      ∧ (computeFittsAndScanning m p ct s).1.fitts.cumulative_id
          = m.fitts.cumulative_id)
    ∧ ((reportAfter 500 [(.click clickA1, 1000),
          (.click clickA2, 2000)]).metrics.scanning_distance.cumulative_px = 400
      ∧ (reportAfter 500 [(.click clickA1, 1000),
          (.click clickA2, 2000)]).metrics.fitts.cumulative_id
            = Real.logb 2 (400 / 40 + 1)) := by
  refine ⟨?_, ?_, ?_⟩
  · intro m p ct s lx ly h
    exact ⟨computeFittsAndScanning_scan_cum m p ct s lx ly h,
      computeFittsAndScanning_fitts_cum m p ct s lx ly h⟩
  · intro m p ct s h
    exact computeFittsAndScanning_none m p ct s h
  · exact ⟨stepA2_scan, stepA2_fitts⟩

/-- Witness for C3 at a concrete click with a previous position. -/
theorem c3_fitts_scanning_accumulation_witness :
    (computeFittsAndScanning emptyMetrics clickA2 "B" posState).1.scanning_distance.cumulative_px
        = emptyMetrics.scanning_distance.cumulative_px
          + Real.sqrt ((clickA2.x - 100) * (clickA2.x - 100)
              + (clickA2.y - 100) * (clickA2.y - 100))
    ∧ (computeFittsAndScanning emptyMetrics clickA2 "B" posState).1.fitts.cumulative_id
        = emptyMetrics.fitts.cumulative_id
          + (if (clickA2.target.rect.width
                  * |Real.cos (jsAtan2 |clickA2.y - 100| |clickA2.x - 100|)|
                + clickA2.target.rect.height
                  * |Real.sin (jsAtan2 |clickA2.y - 100| |clickA2.x - 100|)| > 0
              ∧ Real.sqrt ((clickA2.x - 100) * (clickA2.x - 100)
                  + (clickA2.y - 100) * (clickA2.y - 100)) > 0)
             then Real.logb 2
                (Real.sqrt ((clickA2.x - 100) * (clickA2.x - 100)
                    + (clickA2.y - 100) * (clickA2.y - 100))
                  / (clickA2.target.rect.width
                      * |Real.cos (jsAtan2 |clickA2.y - 100| |clickA2.x - 100|)|
                    + clickA2.target.rect.height
                      * |Real.sin (jsAtan2 |clickA2.y - 100| |clickA2.x - 100|)|) + 1)
             else 0) :=
  c3_fitts_scanning_accumulation.1 emptyMetrics clickA2 "B" posState 100 100 rfl

/-! ## Scenario C (spec §8): cursor travel of 800 px after 400 px of
accumulated scanning distance -/

/-- Scenario C cursor travel payload: 800 px total travel. -/
def mtC : MouseTravelPayload := { total_px := 800, idle_travel_px := 100, move_events := 50 }

lemma stepA2_isRecording : stepA2.isRecording = true := by
  rw [stepA2_eq, handleStep_isRecording]
  exact stepA1_isRecording

lemma stepA2_currentRecording : stepA2.currentRecording = some (reportOf stepA2) := by
  rw [stepA2_eq]
  exact handleStep_currentRecording _ _ _ _

/-- The state after scenario A followed by the scenario-C cursor travel. -/
noncomputable def stepC3 : SessionState :=
  handleEventInternal stepA2 (.mouse_travel_update mtC) 3000

lemma stepC3_eq : stepC3 = handleStep (reportOf stepA2) (.mouse_travel_update mtC)
    stepA2 3000 := by
  unfold stepC3
  rw [handleEvent_recording _ _ _ (reportOf stepA2) stepA2_isRecording stepA2_currentRecording]
  rfl

lemma stepC3_path : (reportOf stepC3).metrics.mouse_travel.path_efficiency = some 0.5 := by
  rw [stepC3_eq, handleStep_mouse_travel, reportOf_some _ _ rfl]
  dsimp only
  rw [(writeComposite_fields _).2.2.2.2.2.2]
  unfold processMouseTravelEvent
  dsimp only
  rw [if_pos (by norm_num [mtC] : mtC.total_px > 0), stepA2_scan]
  norm_num [mtC]

/-- C7: a cursor-travel event overwrites mouseTravel.totalPx, idleTravelPx and
moveEvents from the event and sets pathEfficiency to
scanningDistance.cumulativePx / totalPx when totalPx > 0 and to null
otherwise; a cursor-travel event with totalPx = 800 arriving after 400 px of
accumulated scanning distance yields pathEfficiency = 0.5. -/
theorem c7_mouse_travel_processor :
    (∀ (r : BenchmarkReport) (mt : MouseTravelPayload),
      (processMouseTravelEvent r mt).1.metrics.mouse_travel.total_px = mt.total_px
      ∧ (processMouseTravelEvent r mt).1.metrics.mouse_travel.idle_travel_px
          = mt.idle_travel_px
      ∧ (processMouseTravelEvent r mt).1.metrics.mouse_travel.move_events = mt.move_events
      ∧ (processMouseTravelEvent r mt).1.metrics.mouse_travel.path_efficiency
          = (if mt.total_px > 0 then
               some (r.metrics.scanning_distance.cumulative_px / mt.total_px)
             else none))
    ∧ (reportAfter 500 [(.click clickA1, 1000), (.click clickA2, 2000),
        (.mouse_travel_update mtC, 3000)]).metrics.mouse_travel.path_efficiency
          = some 0.5 := by
  constructor
  · intro r mt
    exact ⟨rfl, rfl, rfl, rfl⟩
  · exact stepC3_path

/-! ## Idle gap projections for C5 -/

lemma classifyAndCount_time (m : Metrics) (c : ClickPayload) :
    (classifyAndCount m c).time_on_task = m.time_on_task := by
  unfold classifyAndCount
  split_ifs <;> rfl

lemma computeFittsAndScanning_time (m : Metrics) (p : ClickPayload)
    (ct : String) (s : SessionState) :
    (computeFittsAndScanning m p ct s).1.time_on_task = m.time_on_task := by
  unfold computeFittsAndScanning
  cases hpos : s.lastClickPosition <;> dsimp only <;> split_ifs <;> rfl

lemma processClickEvent_time (r : BenchmarkReport) (c : ClickPayload) (s : SessionState) :
    (processClickEvent r c s).1.metrics.time_on_task = r.metrics.time_on_task := by
  rw [processClickEvent_metrics, computeFittsAndScanning_time, classifyAndCount_time]

lemma processScrollEvent_time (r : BenchmarkReport) (sc : ScrollPayload) :
    (processScrollEvent r sc).1.metrics.time_on_task = r.metrics.time_on_task := rfl

lemma processKeyboardEvent_time (r : BenchmarkReport) (k : KeyboardPayload)
    (s : SessionState) :
    (processKeyboardEvent r k s).1.metrics.time_on_task = r.metrics.time_on_task := rfl

lemma processMouseTravelEvent_time (r : BenchmarkReport) (mt : MouseTravelPayload) :
    (processMouseTravelEvent r mt).1.metrics.time_on_task = r.metrics.time_on_task := rfl

/-- The idle gap list of the current report of a session state. -/
def gapsOf (s : SessionState) : List IdleGap :=
  (reportOf s).metrics.time_on_task.idle_gaps

/-- C5: idle-gap detection runs only for the active categories (click,
keyboard, scroll) and never for cursor-travel events; with the last-action
time set to `la` (a non-zero timestamp), an entry
`{gap_ms, after_action, before_action}` is appended exactly when the gap
`now - la` exceeds 3000 ms, and the last-action time is then set to the
event's time unconditionally; when the last-action time is unset — the first
event of the session — gap detection is skipped but the last-action time is
still recorded. -/
theorem c5_idle_gap_detection :
    (∀ (s : SessionState) (mt : MouseTravelPayload) (w : ℝ),
      gapsOf (handleEventInternal s (.mouse_travel_update mt) w) = gapsOf s
      ∧ (handleEventInternal s (.mouse_travel_update mt) w).lastActionTime
          = s.lastActionTime)
    ∧ (∀ (s : SessionState) (p : EventPayload) (w : ℝ) (r : BenchmarkReport) (la : ℝ),
      isUserAction p = true → s.isRecording = true → s.currentRecording = some r →
      s.lastActionTime = some la → ¬ la = 0 →
      gapsOf (handleEventInternal s p w)
          = r.metrics.time_on_task.idle_gaps
            ++ (if eventNow p w - la > IDLE_GAP_MS then
                  [{ gap_ms := eventNow p w - la
                     after_action := jsStrOr s.lastActionLabel "start"
                     before_action := deriveActionLabel p }]
                else [])
      ∧ (handleEventInternal s p w).lastActionTime = some (eventNow p w))
    ∧ (∀ (s : SessionState) (p : EventPayload) (w : ℝ) (r : BenchmarkReport),
      isUserAction p = true → s.isRecording = true → s.currentRecording = some r →
      s.lastActionTime = none →
      gapsOf (handleEventInternal s p w) = r.metrics.time_on_task.idle_gaps
      ∧ (handleEventInternal s p w).lastActionTime = some (eventNow p w)) := by
  refine ⟨?_, ?_, ?_⟩
  · intro s mt w
    cases hrec : s.isRecording with
    | false => rw [handleEvent_not_recording _ _ _ hrec]; exact ⟨rfl, rfl⟩
    | true =>
      cases h2 : s.currentRecording with
      | none => rw [handleEvent_no_report _ _ _ h2]; exact ⟨rfl, rfl⟩
      | some r =>
        rw [handleEvent_recording _ _ _ r hrec h2, handleStep_mouse_travel]
        constructor
        · unfold gapsOf
          rw [reportOf_some _ _ rfl, reportOf_some s r h2]
          dsimp only
          rw [(writeComposite_fields _).2.2.2.2.2.1, processMouseTravelEvent_time]
        · rfl
  · intro s p w r la hact hrec h2 hla hla0
    have hdet : ∀ q : EventPayload, detectIdleGap r q s (eventNow q w)
        = ({ r with metrics.time_on_task.idle_gaps :=
              r.metrics.time_on_task.idle_gaps
                ++ (if eventNow q w - la > IDLE_GAP_MS then
                      [{ gap_ms := eventNow q w - la
                         after_action := jsStrOr s.lastActionLabel "start"
                         before_action := deriveActionLabel q }]
                    else []) },
           { s with lastActionTime := some (eventNow q w) }) := by
      intro q
      by_cases hgap : eventNow q w - la > IDLE_GAP_MS
      · rw [detectIdleGap_gap r q s (eventNow q w) la hla hla0 hgap, if_pos hgap]
      · rw [detectIdleGap_no_gap r q s (eventNow q w) la hla hla0 hgap, if_neg hgap]
        have : r = { r with metrics.time_on_task.idle_gaps :=
            r.metrics.time_on_task.idle_gaps ++ [] } := by
          simp
        rw [← this]
    rw [handleEvent_recording _ _ _ r hrec h2]
    cases p with
    | click c =>
      rw [handleStep_click, hdet (.click c)]
      dsimp only
      constructor
      · unfold gapsOf
        rw [reportOf_some _ _ rfl]
        dsimp only
        rw [(writeComposite_fields _).2.2.2.2.2.1, processClickEvent_time]
      · rfl
    | scroll_update sc =>
      rw [handleStep_scroll, hdet (.scroll_update sc)]
      dsimp only
      constructor
      · unfold gapsOf
        rw [reportOf_some _ _ rfl]
        dsimp only
        rw [(writeComposite_fields _).2.2.2.2.2.1, processScrollEvent_time]
      · rfl
    | keyboard_update k =>
      rw [handleStep_keyboard, hdet (.keyboard_update k)]
      dsimp only
      constructor
      · unfold gapsOf
        rw [reportOf_some _ _ rfl]
        dsimp only
        rw [(writeComposite_fields _).2.2.2.2.2.1, processKeyboardEvent_time]
      · rfl
    | mouse_travel_update mt => simp [isUserAction] at hact
  · intro s p w r hact hrec h2 hnone
    rw [handleEvent_recording _ _ _ r hrec h2]
    cases p with
    | click c =>
      rw [handleStep_click, detectIdleGap_unset _ _ _ _ hnone]
      dsimp only
      constructor
      · unfold gapsOf
        rw [reportOf_some _ _ rfl]
        dsimp only
        rw [(writeComposite_fields _).2.2.2.2.2.1, processClickEvent_time]
      · rfl
    | scroll_update sc =>
      rw [handleStep_scroll, detectIdleGap_unset _ _ _ _ hnone]
      dsimp only
      constructor
      · unfold gapsOf
        rw [reportOf_some _ _ rfl]
        dsimp only
        rw [(writeComposite_fields _).2.2.2.2.2.1, processScrollEvent_time]
      · rfl
    | keyboard_update k =>
      rw [handleStep_keyboard, detectIdleGap_unset _ _ _ _ hnone]
      dsimp only
      constructor
      · unfold gapsOf
        rw [reportOf_some _ _ rfl]
        dsimp only
        rw [(writeComposite_fields _).2.2.2.2.2.1, processKeyboardEvent_time]
      · rfl
    | mouse_travel_update mt => simp [isUserAction] at hact

/-- A recording session state with a last action at t = 1000 labelled
"First". -/
noncomputable def gapState : SessionState :=
  { isRecording := true, startTime := some 500, lastClickPosition := none
    lastClickTarget := none, lastActionTime := some 1000
    lastActionLabel := some "First", currentRecording := some emptyReport }

/-- Witness for C5: a keyboard event at t = 5000 after a last action at
t = 1000 records a 4000 ms idle gap, and a cursor-travel event in the same
state records none. -/
theorem c5_idle_gap_detection_witness :
    gapsOf (handleEventInternal gapState (.keyboard_update kbSample) 5000)
        = [{ gap_ms := 4000, after_action := "First", before_action := "keyboard_update" }]
    ∧ (handleEventInternal gapState (.keyboard_update kbSample) 5000).lastActionTime
        = some 5000
    ∧ gapsOf (handleEventInternal gapState (.mouse_travel_update mtC) 5000)
        = gapsOf gapState := by
  have h := c5_idle_gap_detection.2.1 gapState (.keyboard_update kbSample) 5000
    emptyReport 1000 rfl rfl rfl rfl (by norm_num)
  have hm := (c5_idle_gap_detection.1 gapState mtC 5000).1
  refine ⟨?_, ?_, hm⟩
  · rw [h.1]
    rw [show eventNow (.keyboard_update kbSample) 5000 = (5000:ℝ) from rfl]
    rw [if_pos (by norm_num [IDLE_GAP_MS] : (5000:ℝ) - 1000 > IDLE_GAP_MS)]
    norm_num [jsStrOr, deriveActionLabel, payloadTypeName, IdleGap.mk.injEq,
      emptyReport, emptyMetrics, gapState]
    rfl
  · rw [h.2]
    rfl

/-! ## C10: classification fallback -/

/-- A click whose classification string is neither of the recognized
non-productive labels. -/
def bogusClick : ClickPayload :=
  { timestamp := 1, x := 0, y := 0
    classification := some "bogus", classificationReason := none
    target := { tagName := "BUTTON", id := none, innerText := some "Go"
                rect := { width := 10, height := 10 } } }

/-- Counterexample for C10 as stated: a click with the unrecognized
classification "bogus" is counted as productive, but its action-log entry
records the raw string "bogus", not "productive" — appendActionLog falls back
to "productive" only for a missing or empty classification
(JS `payload.classification || 'productive'`). -/
theorem c10_counterexample :
    (classifyAndCount emptyMetrics bogusClick).click_count.productive = 1
    ∧ ((appendActionLog emptyReport bogusClick).action_log.map
        ActionLogEntry.classification) = ["bogus"]
    ∧ ("bogus" : String) ≠ "productive" := by
  refine ⟨rfl, rfl, by decide⟩

/-- C10 (amended): a click whose classification is missing or unrecognized
increments clickCount.productive and leaves the other buckets unchanged, so
the total invariant holds; the action-log entry records "productive" only when
the classification is missing or empty, and otherwise records the raw
classification string (`classification || 'productive'`). -/
theorem c10_default_classification (m : Metrics) (r : BenchmarkReport) (p : ClickPayload)
    (h1 : p.classification ≠ some "wasted") (h2 : p.classification ≠ some "ceremonial") :
    (classifyAndCount m p).click_count.productive = m.click_count.productive + 1
    ∧ (classifyAndCount m p).click_count.ceremonial = m.click_count.ceremonial
    ∧ (classifyAndCount m p).click_count.wasted = m.click_count.wasted
    ∧ (classifyAndCount m p).click_count.total = m.click_count.total + 1
    ∧ (appendActionLog r p).action_log.getLast? = some
        { type := "click", timestamp := p.timestamp
          target := elementLabel p.target
          text := p.target.innerText.getD ""
          classification := jsStrOr p.classification "productive" } := by
  rcases classifyAndCount_buckets m p with ⟨hc, _, _, _⟩ | ⟨hc, _, _, _⟩ | ⟨_, _, hp, hcer, hw⟩
  · exact absurd hc h1
  · exact absurd hc h2
  · refine ⟨hp, hcer, hw, classifyAndCount_total m p, ?_⟩
    unfold appendActionLog
    dsimp only
    split_ifs with hlen
    · rw [List.drop_append_of_le_length (by
        simp only [List.length_append, List.length_cons, List.length_nil] at hlen ⊢
        unfold ACTION_LOG_MAX at hlen ⊢
        omega)]
      exact List.getLast?_concat _
    · exact List.getLast?_concat _

/-- Witness for C10 at the concrete unrecognized classification "bogus". -/
theorem c10_default_classification_witness :
    (classifyAndCount emptyMetrics bogusClick).click_count.productive
        = emptyMetrics.click_count.productive + 1
    ∧ (classifyAndCount emptyMetrics bogusClick).click_count.ceremonial
        = emptyMetrics.click_count.ceremonial
    ∧ (classifyAndCount emptyMetrics bogusClick).click_count.wasted
        = emptyMetrics.click_count.wasted
    ∧ (classifyAndCount emptyMetrics bogusClick).click_count.total
        = emptyMetrics.click_count.total + 1
    ∧ (appendActionLog emptyReport bogusClick).action_log.getLast? = some
        { type := "click", timestamp := bogusClick.timestamp
          target := elementLabel bogusClick.target
          text := bogusClick.target.innerText.getD ""
          classification := jsStrOr bogusClick.classification "productive" } :=
  c10_default_classification emptyMetrics emptyReport bogusClick (by decide) (by decide)

/-! ## C8: the averager with zero valid reports -/

/-- C8: when no input report survives the validity filter, buildAveragedReport
fails with NoValidReports and the download handler writes no file. -/
theorem c8_no_valid_reports (runs : List (Option AvgReport))
    (h : runs.filterMap id = []) :
    buildAveragedReport runs = .error .noValidReports
    ∧ exportAveragedReport runs = none := by
  have hb : buildAveragedReport runs = .error .noValidReports := by
    unfold buildAveragedReport
    rw [h]
    rfl
  refine ⟨hb, ?_⟩
  unfold exportAveragedReport
  rw [hb]
  split_ifs <;> rfl

/-- Witness for C8: a single malformed run leaves zero valid reports. -/
theorem c8_no_valid_reports_witness :
    buildAveragedReport [(none : Option AvgReport)] = .error .noValidReports
    ∧ exportAveragedReport [(none : Option AvgReport)] = none :=
  c8_no_valid_reports [none] rfl

/-! ## C9: averaging two identical reports -/

lemma avgOf_pair (r : AvgReport) (rnd : ℚ → ℚ) (f : AvgReport → ℚ) :
    avgOf [r, r] rnd f = rnd (f r) := by
  unfold avgOf
  congr 1
  simp only [List.map_cons, List.map_nil, List.sum_cons, List.sum_nil,
    List.length_cons, List.length_nil]
  push_cast
  ring

/-- A valid report whose cumulative Fitts ID 1/8 is not a multiple of 1/100. -/
def r9 : AvgReport :=
  { metadata := { run_count := none, averaged := false }
    metrics :=
      { click_count := { total := 0, productive := 0, ceremonial := 0, wasted := 0 }
        time_on_task := { total_ms := 0 }
        fitts := { cumulative_id := 1/8, average_id := 0, max_id := 0
                   max_id_element := "", top_3_hardest := [] }
        context_switches := { total := 0, ratio_ := 0 }
        shortcut_coverage := { shortcuts_used := 0 }
        typing_ratio_ := { free_text_inputs := 0, constrained_inputs := 0, ratio_ := 0
                           free_text_fields := [] }
        scanning_distance := { cumulative_px := 0, average_px := 0, max_single_px := 0 }
        scroll_distance := { total_px := 0, page_scroll_px := none
                             container_scroll_px := none, scroll_events := none }
        mouse_travel := { total_px := 0, idle_travel_px := 0, move_events := 0
                          path_efficiency := none }
        composite_score := 0 }
    composite_top := none }

lemma buildAveragedReport_pair_cumulative_id (r : AvgReport) :
    ∃ res, buildAveragedReport [some r, some r] = .ok res
      ∧ res.metrics.fitts.cumulative_id = jsRound2 r.metrics.fitts.cumulative_id := by
  have hfm : ([some r, some r] : List (Option AvgReport)).filterMap id = [r, r] := rfl
  refine ⟨_, rfl, ?_⟩
  dsimp only
  rw [hfm]
  rw [avgOf_pair]

/-- Counterexample for C9 as stated: averaging the report r9 (whose
fitts.cumulative_id is 1/8 = 0.125) with itself yields 13/100 = 0.13, because
every averaged field passes through its rounding rule (round2 here), so the
result is not numerically identical to the input. -/
theorem c9_counterexample :
    ∃ res, buildAveragedReport [some r9, some r9] = .ok res
      ∧ res.metrics.fitts.cumulative_id = 13/100
      ∧ r9.metrics.fitts.cumulative_id = 1/8
      ∧ (13/100 : ℚ) ≠ 1/8 := by
  obtain ⟨res, hok, hval⟩ := buildAveragedReport_pair_cumulative_id r9
  refine ⟨res, hok, ?_, rfl, by norm_num⟩
  rw [hval]
  norm_num [r9, jsRound2, jsRound]

/-- C9 (amended): averaging N = 2 identical valid reports succeeds and yields
each averaged numeric field equal to the corresponding input field passed
through that field's rounding rule (Math.round for counts and pixel totals,
round-to-2-decimals for IDs and ratios, with absent optional fields read as 0),
metrics.composite_score copied from the base run, the top-level composite
averaged with round2, and metadata.run_count = 2, metadata.averaged = true
stamped on the result. The fields are numerically identical to the input only
when the input values are already fixed points of their rounding rules. -/
theorem c9_averaging_round_trip (r : AvgReport) :
    ∃ res, buildAveragedReport [some r, some r] = .ok res
    ∧ (res.metadata.run_count = some 2
      ∧ res.metadata.averaged = true
      ∧ res.metrics.click_count.total = jsRound r.metrics.click_count.total
      ∧ res.metrics.click_count.productive = jsRound r.metrics.click_count.productive
      ∧ res.metrics.click_count.ceremonial = jsRound r.metrics.click_count.ceremonial
      ∧ res.metrics.click_count.wasted = jsRound r.metrics.click_count.wasted
      ∧ res.metrics.time_on_task.total_ms = jsRound r.metrics.time_on_task.total_ms
      ∧ res.metrics.fitts.cumulative_id = jsRound2 r.metrics.fitts.cumulative_id
      ∧ res.metrics.fitts.average_id = jsRound2 r.metrics.fitts.average_id
      ∧ res.metrics.fitts.max_id = jsRound2 r.metrics.fitts.max_id
      ∧ res.metrics.context_switches.total = jsRound r.metrics.context_switches.total
      ∧ res.metrics.context_switches.ratio_ = jsRound2 r.metrics.context_switches.ratio_
      ∧ res.metrics.shortcut_coverage.shortcuts_used
          = jsRound r.metrics.shortcut_coverage.shortcuts_used
      ∧ res.metrics.typing_ratio_.free_text_inputs
          = jsRound r.metrics.typing_ratio_.free_text_inputs
      ∧ res.metrics.typing_ratio_.constrained_inputs
          = jsRound r.metrics.typing_ratio_.constrained_inputs
      ∧ res.metrics.typing_ratio_.ratio_ = jsRound2 r.metrics.typing_ratio_.ratio_
      ∧ res.metrics.scanning_distance.cumulative_px
          = jsRound r.metrics.scanning_distance.cumulative_px
      ∧ res.metrics.scanning_distance.average_px
          = jsRound r.metrics.scanning_distance.average_px
      ∧ res.metrics.scanning_distance.max_single_px
          = jsRound r.metrics.scanning_distance.max_single_px
      ∧ res.metrics.scroll_distance.total_px = jsRound r.metrics.scroll_distance.total_px
      ∧ res.metrics.scroll_distance.page_scroll_px
          = some (jsRound ((r.metrics.scroll_distance.page_scroll_px).getD 0))
      ∧ res.metrics.scroll_distance.container_scroll_px
          = some (jsRound ((r.metrics.scroll_distance.container_scroll_px).getD 0))
      ∧ res.metrics.scroll_distance.scroll_events
          = some (jsRound ((r.metrics.scroll_distance.scroll_events).getD 0))
      ∧ res.metrics.mouse_travel.total_px = jsRound r.metrics.mouse_travel.total_px
      ∧ res.metrics.mouse_travel.idle_travel_px
          = jsRound r.metrics.mouse_travel.idle_travel_px
      ∧ res.metrics.mouse_travel.move_events = jsRound r.metrics.mouse_travel.move_events
      ∧ res.metrics.mouse_travel.path_efficiency
          = some (jsRound2 ((r.metrics.mouse_travel.path_efficiency).getD 0))
      ∧ res.metrics.composite_score = r.metrics.composite_score
      ∧ res.composite_top = some (jsRound2 (r.composite_top.getD 0))) := by
  have hfm : ([some r, some r] : List (Option AvgReport)).filterMap id = [r, r] := rfl
  refine ⟨_, rfl, ?_⟩
  dsimp only
  rw [hfm]
  simp only [avgOf_pair, show List.filterMap id [some r] = ([r] : List AvgReport) from rfl]
  norm_num

end UXBench
